import Mathlib

set_option maxRecDepth 4000

/-!
Verification of the pv-zone-migrator migration engine against its
natural-language specification. The definitions below are a shallow
embedding of the Go source: `internal/migrator/migrator.go` (task state
machine, orchestrator, plan generation), `internal/k8s/client.go`
(capacity computation, workload restore), and `cmd/migrate.go`
(post-run compensation). Gateway calls are modelled by environments
recording each call's reply; machine integers are Nat/Int with explicit
wrap where it matters.
-/

namespace PVZone

/-! ## Enum rendering (migrator.go, Step.String and PlanAction.String) -/

/-- The lookup table inside Step.String (migrator.go lines 46-59). -/
def stepNames : List String :=
  ["Pending", "Getting Info", "Skipped", "Creating Snapshot",
   "Snapshot Progress", "Creating Volume", "Volume Creating",
   "Cleaning Up", "Creating PV", "Creating PVC", "Completed", "Failed"]

/-- Step.String (migrator.go lines 45-64). The Go code only guards the
upper bound (`if int(s) < len(names)`); indexing `names[s]` with a
negative `s` panics at runtime, which we model as `none`. -/
def stepString (s : Int) : Option String :=
  if s < (stepNames.length : Int) then
    if 0 ≤ s then some (stepNames.getD s.toNat "") else none
  else
    some "Unknown"

/-- PlanAction.String (migrator.go lines 103-114): a switch with a
default branch, total on every integer value. -/
def planActionString (a : Int) : String :=
  if a = 0 then "Migrate"
  else if a = 1 then "Skip"
  else if a = 2 then "Error"
  else "Unknown"

/-! ## Task identity parsing (migrator.go, ParsePVCName) -/

/-- Helper for Go strings.SplitN(s, "/", 2): splits a character list at
the first '/' when one is present. -/
def splitFirstSlash : List Char → Option (List Char × List Char)
  | [] => none
  | c :: rest =>
    if c = '/' then some ([], rest)
    else
      match splitFirstSlash rest with
      | none => none
      | some (a, b) => some (c :: a, b)

/-- ParsePVCName (migrator.go lines 85-91): split on the first '/'; with
no separator the namespace defaults to "default". -/
def ParsePVCName (fullName : String) : String × String :=
  match splitFirstSlash fullName.data with
  | some (ns, nm) => (String.mk ns, String.mk nm)
  | none => ("default", fullName)

/-! ## Capacity computation (internal/k8s/client.go, GetPVCInfo) -/

/-- Two's-complement conversion to a signed 32-bit value, as Go's
`int32(x)` performs on an int64. -/
def toInt32 (x : Int) : Int :=
  let r := x % 4294967296
  if r < 2147483648 then r else r - 4294967296

/-- The CapacityGi computation in GetPVCInfo (client.go lines 136-139):
`capacityGi := int32(capacity.Value() / (1024*1024*1024))` followed by
clamping to a minimum of 1. The byte count is divided by 2^30 with
truncating integer division. -/
def capacityGiFromBytes (bytes : Nat) : Int :=
  let g := toInt32 ((bytes / 1073741824 : Nat) : Int)
  if g < 1 then 1 else g

/-- Modelled from the spec (for comparison only): the rounding §4.2 step
7 describes, "rounded up to whole GiB, minimum 1 GiB". -/
def specRoundUpGi (bytes : Nat) : Nat :=
  max 1 ((bytes + 1073741823) / 1073741824)

/-! ## Data model of the task state machine (migrator.go) -/

/-- The Step enum (migrator.go lines 30-43), in the order of the Go
constants. -/
inductive Step where
  | pending
  | getInfo
  | skipped
  | snapshot
  | waitSnapshot
  | createVolume
  | waitVolume
  | cleanup
  | createPV
  | createPVC
  | done
  | failed
  deriving DecidableEq, Repr

/-- The migration Config (migrator.go lines 17-24). -/
structure Config where
  namespaces : List String
  targetZone : String
  storageClass : String
  maxConcurrency : Nat
  pvcList : List String
  dryRun : Bool
  deriving Repr

/-- PVCStatus (migrator.go lines 67-82). Timestamps are modelled by
whether they have been set. -/
structure PVCStatus where
  name : String
  namespaceName : String
  pvcName : String
  step : Step
  progress : Int
  error : Option String
  startTimeSet : Bool
  endTimeSet : Bool
  snapshotID : String
  newVolumeID : String
  oldVolumeID : String
  pvName : String
  capacity : String
  currentZone : String
  deriving DecidableEq, Repr

/-- PVCInfo returned by the cluster gateway (internal/k8s/client.go
lines 29-34). -/
structure PVCInfo where
  pvName : String
  volumeID : String
  capacity : String
  capacityGi : Int
  deriving DecidableEq, Repr

/-- VolumeInfo returned by the volume gateway (internal/aws/client.go). -/
structure VolumeInfo where
  volumeID : String
  availabilityZone : String
  state : String
  deriving DecidableEq, Repr

/-- One iteration of the snapshot-progress polling loop: the reply of
GetSnapshotProgress and whether the context was cancelled during the
wait that follows a non-terminal poll. -/
structure SnapPoll where
  result : Except String (Int × String)
  cancelled : Bool
  deriving Repr

/-- One iteration of the volume-state polling loop: the reply of
GetVolumeState and whether the context was cancelled during the wait
that follows a non-terminal poll. -/
structure VolPoll where
  result : Except String String
  cancelled : Bool
  deriving Repr

/-- The gateway replies one task observes while migratePVC runs. For
error-only calls, `some e` is a failure with message `e` and `none` is
success. -/
structure Env where
  getPVCInfo : Except String PVCInfo
  getVolumeInfo : Except String VolumeInfo
  createSnapshot : Except String String
  snapshotPolls : List SnapPoll
  createVolume : Except String String
  volumePolls : List VolPoll
  createStaticPV : Option String
  cleanupResources : Option String
  createBoundPVC : Option String

/-- Gateway calls a task can make, used to record traces. -/
inductive Event where
  | getPVCInfo
  | getVolumeInfo
  | createSnapshot
  | getSnapshotProgress
  | createVolume
  | getVolumeState
  | createStaticPV
  | cleanupResources
  | createBoundPVC
  deriving DecidableEq, Repr

/-- The mutating gateway operations named by the dry-run purity
property; the four remaining events are read-only. -/
def Event.isMutating : Event → Bool
  | .createSnapshot => true
  | .createVolume => true
  | .createStaticPV => true
  | .cleanupResources => true
  | .createBoundPVC => true
  | _ => false

/-- updateStatus (migrator.go lines 196-212): stores step and progress;
a non-nil error additionally forces the step to Failed and sets the end
timestamp; storing Done also sets the end timestamp. -/
def updateStatus (s : PVCStatus) (step1 : Step) (progress : Int)
    (err : Option String) : PVCStatus :=
  let s1 := { s with step := step1, progress := progress }
  let s2 :=
    if err.isSome then
      { s1 with error := err, step := Step.failed, endTimeSet := true }
    else s1
  if step1 = Step.done then { s2 with endTimeSet := true } else s2

/-- The entry the Orchestrator constructor creates for a task
(migrator.go lines 151-161). -/
def initialStatus (full : String) : PVCStatus :=
  { name := full
    namespaceName := (ParsePVCName full).1
    pvcName := (ParsePVCName full).2
    step := Step.pending
    progress := 0
    error := none
    startTimeSet := false
    endTimeSet := false
    snapshotID := ""
    newVolumeID := ""
    oldVolumeID := ""
    pvName := ""
    capacity := ""
    currentZone := "" }

/-- Outcome of a polling loop: the loop completed, failed the task, or
is still running (the finite poll list is exhausted, standing for a Go
loop that has not yet terminated). -/
inductive LoopOut where
  | completed (s : PVCStatus)
  | failedOut (s : PVCStatus)
  | running (s : PVCStatus)
  deriving Repr

/-- The snapshot wait loop (migrator.go lines 296-320). Returns the
events it emitted, every status snapshot it stored, and its outcome. -/
def waitSnapshotLoop (s : PVCStatus) :
    List SnapPoll → List Event × List PVCStatus × LoopOut
  | [] => ([], [], LoopOut.running s)
  | p :: rest =>
    match p.result with
    | Except.error e =>
      let s1 := updateStatus s Step.failed 0
        (some ("get snapshot progress: " ++ e))
      ([Event.getSnapshotProgress], [s1], LoopOut.failedOut s1)
    | Except.ok (progress, state) =>
      let s1 := updateStatus s Step.waitSnapshot progress none
      if state = "completed" then
        ([Event.getSnapshotProgress], [s1], LoopOut.completed s1)
      else if state = "error" then
        let s2 := updateStatus s1 Step.failed 0 (some "snapshot failed")
        ([Event.getSnapshotProgress], [s1, s2], LoopOut.failedOut s2)
      else if p.cancelled then
        let s2 := updateStatus s1 Step.failed 0 (some "context cancelled")
        ([Event.getSnapshotProgress], [s1, s2], LoopOut.failedOut s2)
      else
        let (tr, st, out) := waitSnapshotLoop s1 rest
        (Event.getSnapshotProgress :: tr, s1 :: st, out)

/-- The volume wait loop (migrator.go lines 335-364). -/
def waitVolumeLoop (s : PVCStatus) :
    List VolPoll → List Event × List PVCStatus × LoopOut
  | [] => ([], [], LoopOut.running s)
  | p :: rest =>
    match p.result with
    | Except.error e =>
      let s1 := updateStatus s Step.failed 0
        (some ("get volume state: " ++ e))
      ([Event.getVolumeState], [s1], LoopOut.failedOut s1)
    | Except.ok state =>
      if state = "available" then
        let s1 := updateStatus s Step.waitVolume 100 none
        ([Event.getVolumeState], [s1], LoopOut.completed s1)
      else if state = "error" then
        let s1 := updateStatus s Step.failed 0
          (some "volume creation failed")
        ([Event.getVolumeState], [s1], LoopOut.failedOut s1)
      else
        let progress : Int := if state = "creating" then 25 else 50
        let s1 := updateStatus s Step.waitVolume progress none
        if p.cancelled then
          let s2 := updateStatus s1 Step.failed 0 (some "context cancelled")
          ([Event.getVolumeState], [s1, s2], LoopOut.failedOut s2)
        else
          let (tr, st, out) := waitVolumeLoop s1 rest
          (Event.getVolumeState :: tr, s1 :: st, out)

/-- Steps 6-8 of migratePVC (migrator.go lines 366-393): create the
new static PV, clean up the old claim and volume, create the new bound
claim. `s11` is the status after the new volume became available.
Returns the emitted gateway events, the stored status snapshots and the
final status of this phase. -/
def createAndSwapPhase (env : Env) (s11 : PVCStatus) :
    List Event × List PVCStatus × PVCStatus :=
  let s12 := updateStatus s11 Step.createPV 0 none
  match env.createStaticPV with
  | some e =>
    let s13 := updateStatus s12 Step.failed 0 (some ("create PV: " ++ e))
    ([Event.createStaticPV], [s12, s13], s13)
  | none =>
    let s13 := updateStatus s12 Step.cleanup 0 none
    match env.cleanupResources with
    | some e =>
      let s14 := updateStatus s13 Step.failed 0 (some ("cleanup: " ++ e))
      ([Event.createStaticPV, Event.cleanupResources], [s12, s13, s14], s14)
    | none =>
      let s14 := updateStatus s13 Step.createPVC 0 none
      match env.createBoundPVC with
      | some e =>
        let s15 := updateStatus s14 Step.failed 0 (some ("create PVC: " ++ e))
        ([Event.createStaticPV, Event.cleanupResources,
          Event.createBoundPVC], [s12, s13, s14, s15], s15)
      | none =>
        let s15 := updateStatus s14 Step.done 100 none
        ([Event.createStaticPV, Event.cleanupResources,
          Event.createBoundPVC], [s12, s13, s14, s15], s15)

/-- Steps 4-8 of migratePVC (migrator.go lines 322-393): create the new
volume from the snapshot, wait for it, then hand over to the create/
cleanup/bind phase. `s7` is the status after the snapshot completed. -/
def volumePhase (env : Env) (s7 : PVCStatus) :
    List Event × List PVCStatus × PVCStatus :=
  let s8 := updateStatus s7 Step.createVolume 0 none
  match env.createVolume with
  | Except.error e =>
    let s9 := updateStatus s8 Step.failed 0 (some ("create volume: " ++ e))
    ([Event.createVolume], [s8, s9], s9)
  | Except.ok newVolID =>
    let s9 := { s8 with newVolumeID := newVolID }
    let s10 := updateStatus s9 Step.waitVolume 0 none
    match waitVolumeLoop s10 env.volumePolls with
    | (trV, stV, LoopOut.failedOut sf) =>
      (Event.createVolume :: trV, [s8, s9, s10] ++ stV, sf)
    | (trV, stV, LoopOut.running sr) =>
      (Event.createVolume :: trV, [s8, s9, s10] ++ stV, sr)
    | (trV, stV, LoopOut.completed s11) =>
      let rest := createAndSwapPhase env s11
      (Event.createVolume :: (trV ++ rest.1),
       [s8, s9, s10] ++ stV ++ rest.2.1, rest.2.2)

/-- Steps 2-8 of migratePVC (migrator.go lines 283-393): create the
snapshot, wait for it, then hand over to the volume phase. `s3` is the
status after the zone and dry-run checks decided to migrate. -/
def snapshotPhase (env : Env) (s3 : PVCStatus) :
    List Event × List PVCStatus × PVCStatus :=
  let s4 := updateStatus s3 Step.snapshot 0 none
  match env.createSnapshot with
  | Except.error e =>
    let s5 := updateStatus s4 Step.failed 0 (some ("create snapshot: " ++ e))
    ([Event.createSnapshot], [s4, s5], s5)
  | Except.ok snapID =>
    let s5 := { s4 with snapshotID := snapID }
    let s6 := updateStatus s5 Step.waitSnapshot 0 none
    match waitSnapshotLoop s6 env.snapshotPolls with
    | (trS, stS, LoopOut.failedOut sf) =>
      (Event.createSnapshot :: trS, [s4, s5, s6] ++ stS, sf)
    | (trS, stS, LoopOut.running sr) =>
      (Event.createSnapshot :: trS, [s4, s5, s6] ++ stS, sr)
    | (trS, stS, LoopOut.completed s7) =>
      let rest := volumePhase env s7
      (Event.createSnapshot :: (trS ++ rest.1),
       [s4, s5, s6] ++ stS ++ rest.2.1, rest.2.2)

/-- migratePVC (migrator.go lines 236-393): one task's state machine.
Gets the claim and volume info, applies the skip and dry-run rules, and
otherwise runs the snapshot/volume/swap phases in order. Returns the
trace of gateway calls, the successive status snapshots stored in the
Status Store (oldest first), and the final stored status. -/
def migratePVC (cfg : Config) (env : Env) (s0 : PVCStatus) :
    List Event × List PVCStatus × PVCStatus :=
  let sA := { s0 with startTimeSet := true }
  let s1 := updateStatus sA Step.getInfo 0 none
  match env.getPVCInfo with
  | Except.error e =>
    let s2 := updateStatus s1 Step.failed 0 (some ("get info: " ++ e))
    ([Event.getPVCInfo], [sA, s1, s2], s2)
  | Except.ok info =>
    let s2 := { s1 with oldVolumeID := info.volumeID, pvName := info.pvName,
                        capacity := info.capacity }
    match env.getVolumeInfo with
    | Except.error e =>
      let s3 := updateStatus s2 Step.failed 0
        (some ("get volume info: " ++ e))
      ([Event.getPVCInfo, Event.getVolumeInfo], [sA, s1, s2, s3], s3)
    | Except.ok volInfo =>
      let s3 := { s2 with currentZone := volInfo.availabilityZone }
      if volInfo.availabilityZone = cfg.targetZone then
        let s4 := updateStatus s3 Step.skipped 100 none
        let s5 := { s4 with endTimeSet := true }
        ([Event.getPVCInfo, Event.getVolumeInfo],
         [sA, s1, s2, s3, s4, s5], s5)
      else if cfg.dryRun then
        let s4 := updateStatus s3 Step.done 100 none
        ([Event.getPVCInfo, Event.getVolumeInfo], [sA, s1, s2, s3, s4], s4)
      else
        let rest := snapshotPhase env s3
        (Event.getPVCInfo :: Event.getVolumeInfo :: rest.1,
         [sA, s1, s2, s3] ++ rest.2.1, rest.2.2)

/-- Run (migrator.go lines 215-234) at the level of gateway calls: one
state machine per configured task, each consuming its own gateway
replies and owning its own status entry, so the multiset of calls and
the per-task final statuses are independent of scheduling. Returns the
combined trace and final status per task. -/
def Run (cfg : Config) (envs : String → Env) :
    List Event × List (String × PVCStatus) :=
  ((cfg.pvcList.map fun p =>
      (migratePVC cfg (envs p) (initialStatus p)).1).flatten,
   cfg.pvcList.map fun p =>
     (p, (migratePVC cfg (envs p) (initialStatus p)).2.2))

/-- A status satisfies the Error/Failed invariant when its error is
present exactly if its step is Failed. -/
def statusInv (s : PVCStatus) : Prop :=
  s.error.isSome = true ↔ s.step = Step.failed

/-- A sample configuration for evaluating the theorems at a concrete
input: one task, migrating to us-east-1a. -/
def cfgSample : Config :=
  { namespaces := ["ns"]
    targetZone := "us-east-1a"
    storageClass := "gp3"
    maxConcurrency := 2
    pvcList := ["ns/data"]
    dryRun := false }

/-- A sample gateway environment in which every call succeeds and both
polls complete immediately; the backing volume starts in us-east-1b. -/
def envHappy : Env :=
  { getPVCInfo := Except.ok ⟨"pv-data", "vol-old", "50Gi", 50⟩
    getVolumeInfo := Except.ok ⟨"vol-old", "us-east-1b", "in-use"⟩
    createSnapshot := Except.ok "snap-1"
    snapshotPolls := [⟨Except.ok (100, "completed"), false⟩]
    createVolume := Except.ok "vol-new"
    volumePolls := [⟨Except.ok "available", false⟩]
    createStaticPV := none
    cleanupResources := none
    createBoundPVC := none }

/-- A sample environment whose volume lookup reports the target zone
already, so the task is skipped. -/
def envAlreadyInZone : Env :=
  { envHappy with getVolumeInfo := Except.ok ⟨"vol-old", "us-east-1a", "in-use"⟩ }

/-! ## Plan generation (migrator.go, GeneratePlan) -/

/-- The PlanAction enum (migrator.go lines 94-101), in the order of the
Go constants; the zero value is Migrate. -/
inductive PlanAction where
  | migrate
  | skip
  | error
  deriving DecidableEq, Repr

/-- PVCPlanItem (migrator.go lines 117-128). -/
structure PVCPlanItem where
  name : String
  namespaceName : String
  pvcName : String
  pvName : String
  volumeID : String
  capacity : String
  currentZone : String
  targetZone : String
  action : PlanAction
  reason : String
  deriving DecidableEq, Repr

/-- MigrationPlan (migrator.go lines 131-138). -/
structure MigrationPlan where
  items : List PVCPlanItem
  targetZone : String
  storageClass : String
  dryRun : Bool
  namespaces : List String
  concurrency : Nat
  deriving Repr

/-- The gateway replies GeneratePlan observes: GetPVCInfo keyed by
namespace and claim name, GetVolumeInfo keyed by volume id. -/
structure PlanEnv where
  getPVCInfo : String → String → Except String PVCInfo
  getVolumeInfo : String → Except String VolumeInfo

/-- The per-task body of GeneratePlan (migrator.go lines 406-448):
classify one task read-only, returning the plan item and the trace of
gateway calls made for it. Go zero values give the initial item its
Migrate action and empty reason. -/
def planItemFor (cfg : Config) (env : PlanEnv) (pvcName : String) :
    PVCPlanItem × List Event :=
  let ns := (ParsePVCName pvcName).1
  let shortName := (ParsePVCName pvcName).2
  let item0 : PVCPlanItem :=
    { name := pvcName, namespaceName := ns, pvcName := shortName,
      pvName := "", volumeID := "", capacity := "", currentZone := "",
      targetZone := cfg.targetZone, action := PlanAction.migrate,
      reason := "" }
  match env.getPVCInfo ns shortName with
  | Except.error e =>
    ({ item0 with action := PlanAction.error,
                  reason := "Failed to get PVC info: " ++ e },
     [Event.getPVCInfo])
  | Except.ok info =>
    let item1 := { item0 with pvName := info.pvName,
                              volumeID := info.volumeID,
                              capacity := info.capacity }
    match env.getVolumeInfo info.volumeID with
    | Except.error e =>
      ({ item1 with action := PlanAction.error,
                    reason := "Failed to get volume info: " ++ e },
       [Event.getPVCInfo, Event.getVolumeInfo])
    | Except.ok volInfo =>
      let item2 := { item1 with currentZone := volInfo.availabilityZone }
      if volInfo.availabilityZone = cfg.targetZone then
        ({ item2 with action := PlanAction.skip,
                      reason := "Already in target zone" },
         [Event.getPVCInfo, Event.getVolumeInfo])
      else
        ({ item2 with action := PlanAction.migrate },
         [Event.getPVCInfo, Event.getVolumeInfo])

/-- GeneratePlan (migrator.go lines 396-451): one item per configured
task plus the echoed run-level configuration, together with the trace
of gateway calls made. -/
def GeneratePlan (cfg : Config) (env : PlanEnv) :
    MigrationPlan × List Event :=
  ({ items := cfg.pvcList.map fun p => (planItemFor cfg env p).1
     targetZone := cfg.targetZone
     storageClass := cfg.storageClass
     dryRun := cfg.dryRun
     namespaces := cfg.namespaces
     concurrency := cfg.maxConcurrency },
   (cfg.pvcList.map fun p => (planItemFor cfg env p).2).flatten)

/-- A sample plan environment in which every lookup succeeds and the
volume is in us-east-1b. -/
def planEnvSample : PlanEnv :=
  { getPVCInfo := fun _ _ => Except.ok ⟨"pv-data", "vol-old", "50Gi", 50⟩
    getVolumeInfo := fun _ => Except.ok ⟨"vol-old", "us-east-1b", "in-use"⟩ }

/-! ## Workload and sync-automation restoration (internal/k8s/client.go
and cmd/migrate.go) -/

/-- WorkloadInfo (internal/k8s/client.go lines 37-41). -/
structure WorkloadInfo where
  kind : String
  name : String
  replicas : Int
  deriving DecidableEq, Repr

/-- ArgoCDAppInfo (internal/k8s/client.go lines 44-48); the original
automated policy blob is kept opaque. -/
structure ArgoCDAppInfo where
  name : String
  namespaceName : String
  autoSyncPolicy : String
  deriving DecidableEq, Repr

/-- A workload the restore switch statement acts on: Deployments and
StatefulSets; any other kind falls through the switch silently. -/
def eligibleWorkload (w : WorkloadInfo) : Bool :=
  w.kind = "Deployment" || w.kind = "StatefulSet"

/-- ScaleUpWorkloads (internal/k8s/client.go lines 355-383): iterates
the recorded workloads in order and returns the first error, which
aborts the remaining iterations. `restoreOk w` tells whether the
get/update calls for workload `w` succeed. Returns the workloads for
which a gateway call was attempted and the error outcome. -/
def ScaleUpWorkloads (restoreOk : WorkloadInfo → Bool) :
    List WorkloadInfo → List WorkloadInfo × Option String
  | [] => ([], none)
  | w :: rest =>
    if eligibleWorkload w then
      if restoreOk w then
        let r := ScaleUpWorkloads restoreOk rest
        (w :: r.1, r.2)
      else
        ([w], some ("failed to scale " ++ w.kind ++ " " ++ w.name))
    else
      ScaleUpWorkloads restoreOk rest

/-- EnableArgoCDAutoSync (internal/k8s/client.go lines 503-534):
iterates the recorded applications in order and returns the first
error, which aborts the remaining iterations. -/
def EnableArgoCDAutoSync (enableOk : ArgoCDAppInfo → Bool) :
    List ArgoCDAppInfo → List ArgoCDAppInfo × Option String
  | [] => ([], none)
  | a :: rest =>
    if enableOk a then
      let r := EnableArgoCDAutoSync enableOk rest
      (a :: r.1, r.2)
    else
      ([a], some ("failed to re-enable auto-sync for " ++ a.name))

/-- restoreWorkloads (cmd/migrate.go lines 447-465): skips everything
when nothing was recorded or the run is a dry run; otherwise calls
ScaleUpWorkloads once per recorded namespace group, printing a warning
on error and continuing with the next group. Returns the attempted
workloads per namespace. -/
def restoreWorkloads (dryRun : Bool) (restoreOk : WorkloadInfo → Bool)
    (scaled : List (String × List WorkloadInfo)) :
    List (String × List WorkloadInfo) :=
  if scaled.isEmpty || dryRun then []
  else scaled.map fun g => (g.1, (ScaleUpWorkloads restoreOk g.2).1)

/-- restoreArgoCDAutoSync (cmd/migrate.go lines 468-483): skips when no
application was recorded or the run is a dry run; otherwise makes one
EnableArgoCDAutoSync call over all recorded applications. Returns the
applications for which re-enabling was attempted. -/
def restoreArgoCDAutoSync (dryRun : Bool)
    (enableOk : ArgoCDAppInfo → Bool) (apps : List ArgoCDAppInfo) :
    List ArgoCDAppInfo :=
  if apps.isEmpty || dryRun then []
  else (EnableArgoCDAutoSync enableOk apps).1

/-- The post-run compensation sequence of runMigrate (cmd/migrate.go
lines 320-322): restoreWorkloads runs first, restoreArgoCDAutoSync is
called afterwards unconditionally. -/
def postRunRestore (dryRun : Bool) (restoreOk : WorkloadInfo → Bool)
    (enableOk : ArgoCDAppInfo → Bool)
    (scaled : List (String × List WorkloadInfo))
    (apps : List ArgoCDAppInfo) :
    List (String × List WorkloadInfo) × List ArgoCDAppInfo :=
  (restoreWorkloads dryRun restoreOk scaled,
   restoreArgoCDAutoSync dryRun enableOk apps)

/-! ## The concurrency gate of Run (migrator.go lines 215-234) -/

/-- Where one task's goroutine stands relative to the admission gate:
not yet admitted, holding the gate (executing migratePVC), or finished
(body returned and the semaphore slot released). -/
inductive TaskPhase where
  | idle
  | holding
  | finished
  deriving DecidableEq, Repr

/-- The orchestrator's scheduling state: one phase per task plus the
done flag set after wg.Wait() returns. -/
structure RunState where
  phases : List TaskPhase
  done : Bool
  deriving DecidableEq, Repr

/-- How many goroutines currently hold the admission gate. -/
def holdingCount (st : RunState) : Nat :=
  st.phases.count TaskPhase.holding

/-- The orchestrator state at the start of Run: every task idle, done
not yet set. -/
def initRunState (n : Nat) : RunState :=
  { phases := List.replicate n TaskPhase.idle, done := false }

/-- One scheduler step of Run for a gate of capacity `k`: a task may
acquire a semaphore slot when one is free (`semaphore <- struct{}{}`
blocks otherwise), a holding task may finish (its body returns and the
deferred receive frees the slot), and the done flag may be set once
every task has finished (wg.Wait() returns only then). -/
inductive RunStep (k : Nat) : RunState → RunState → Prop where
  | acquire (pre post : List TaskPhase) (d : Bool)
      (hk : holdingCount ⟨pre ++ TaskPhase.idle :: post, d⟩ < k) :
      RunStep k ⟨pre ++ TaskPhase.idle :: post, d⟩
        ⟨pre ++ TaskPhase.holding :: post, d⟩
  | release (pre post : List TaskPhase) (d : Bool) :
      RunStep k ⟨pre ++ TaskPhase.holding :: post, d⟩
        ⟨pre ++ TaskPhase.finished :: post, d⟩
  | markDone (ph : List TaskPhase)
      (h : ∀ p ∈ ph, p = TaskPhase.finished) :
      RunStep k ⟨ph, false⟩ ⟨ph, true⟩

/-- States of Run reachable from the initial state with `n` tasks under
a gate of capacity `k`. -/
inductive ReachableRun (k n : Nat) : RunState → Prop where
  | init : ReachableRun k n (initRunState n)
  | step {s t : RunState} : ReachableRun k n s → RunStep k s t →
      ReachableRun k n t


end PVZone

namespace PVZone

/-! ## Theorems about the pure functions -/

theorem splitFirstSlash_of_no_slash :
    ∀ l : List Char, '/' ∉ l → splitFirstSlash l = none := by
  intro l hl
  induction l with
  | nil => rfl
  | cons c rest ih =>
    have hc : c ≠ '/' := by
      intro h; exact hl (h ▸ List.mem_cons_self c rest)
    have hrest : '/' ∉ rest := fun h => hl (List.mem_cons_of_mem c h)
    simp [splitFirstSlash, hc, ih hrest]

theorem splitFirstSlash_append :
    ∀ a b : List Char, '/' ∉ a →
      splitFirstSlash (a ++ '/' :: b) = some (a, b) := by
  intro a b ha
  induction a with
  | nil => simp [splitFirstSlash]
  | cons c rest ih =>
    have hc : c ≠ '/' := by
      intro h; exact ha (h ▸ List.mem_cons_self c rest)
    have hrest : '/' ∉ rest := fun h => ha (List.mem_cons_of_mem c h)
    simp [splitFirstSlash, hc, ih hrest]

theorem string_mk_data (s : String) : String.mk s.data = s := by
  cases s
  rfl

/-- Claim C6: ParsePVCName is a total deterministic function on all
strings: inputs with no '/' map to ("default", input); otherwise the
string splits at the first '/'; in particular
ParsePVCName "ns/a/b" = ("ns", "a/b"), ParsePVCName "" = ("default", "")
and ParsePVCName "/x" = ("", "x"). -/
theorem claim_C6_parse :
    (∀ s : String, '/' ∉ s.data → ParsePVCName s = ("default", s)) ∧
    (∀ a b : String, '/' ∉ a.data → ParsePVCName (a ++ "/" ++ b) = (a, b)) ∧
    ParsePVCName "ns/a/b" = ("ns", "a/b") ∧
    ParsePVCName "" = ("default", "") ∧
    ParsePVCName "/x" = ("", "x") := by
  refine ⟨?_, ?_, by decide, by decide, by decide⟩
  · intro s hs
    simp [ParsePVCName, splitFirstSlash_of_no_slash s.data hs]
  · intro a b ha
    have hdata : (a ++ "/" ++ b).data = a.data ++ '/' :: b.data := by
      simp [String.data_append]
    simp [ParsePVCName, hdata, splitFirstSlash_append a.data b.data ha,
      string_mk_data]


theorem claim_C6_parse_witness :
    ParsePVCName "justname" = ("default", "justname") ∧
    ParsePVCName ("ns" ++ "/" ++ "a/b") = ("ns", "a/b") := by
  constructor
  · exact claim_C6_parse.1 "justname" (by decide)
  · exact claim_C6_parse.2.1 "ns" "a/b" (by decide)

/-! ## Lemmas about updateStatus -/

theorem updateStatus_none (s : PVCStatus) (st : Step) (p : Int) :
    (updateStatus s st p none).error = s.error ∧
    (updateStatus s st p none).step = st := by
  unfold updateStatus
  split
  · rename_i h; simp at h
  · split <;> simp

theorem updateStatus_some (s : PVCStatus) (st : Step) (p : Int) (e : String) :
    (updateStatus s st p (some e)).step = Step.failed ∧
    (updateStatus s st p (some e)).error = some e ∧
    (updateStatus s st p (some e)).endTimeSet = true := by
  unfold updateStatus
  split
  · split <;> simp
  · rename_i h; simp at h

theorem statusInv_updateStatus_some (s : PVCStatus) (st : Step) (p : Int)
    (e : String) : statusInv (updateStatus s st p (some e)) := by
  have h := updateStatus_some s st p e
  simp [statusInv, h.1, h.2.1]

theorem statusInv_updateStatus_none (s : PVCStatus) (st : Step) (p : Int)
    (hs : s.error = none) (hst : st ≠ Step.failed) :
    statusInv (updateStatus s st p none) := by
  have h := updateStatus_none s st p
  simp [statusInv, h.1, h.2, hs, hst]

/-! ## Lemmas about the polling loops -/

theorem waitSnapshotLoop_trace (polls : List SnapPoll) :
    ∀ s : PVCStatus, ∀ e ∈ (waitSnapshotLoop s polls).1,
      e = Event.getSnapshotProgress := by
  induction polls with
  | nil => intro s e he; simp [waitSnapshotLoop] at he
  | cons p rest ih =>
    intro s e he
    rcases hr : p.result with e0 | pr
    · simp [waitSnapshotLoop, hr] at he; exact he
    · obtain ⟨prog, state⟩ := pr
      by_cases h1 : state = "completed"
      · simp [waitSnapshotLoop, hr, h1] at he; exact he
      · by_cases h2 : state = "error"
        · simp [waitSnapshotLoop, hr, h1, h2] at he; exact he
        · by_cases h3 : p.cancelled
          · simp [waitSnapshotLoop, hr, h1, h2, h3] at he; exact he
          · simp [waitSnapshotLoop, hr, h1, h2, h3] at he
            rcases he with he | he
            · exact he
            · exact ih _ e he

theorem waitVolumeLoop_trace (polls : List VolPoll) :
    ∀ s : PVCStatus, ∀ e ∈ (waitVolumeLoop s polls).1,
      e = Event.getVolumeState := by
  induction polls with
  | nil => intro s e he; simp [waitVolumeLoop] at he
  | cons p rest ih =>
    intro s e he
    rcases hr : p.result with e0 | state
    · simp [waitVolumeLoop, hr] at he; exact he
    · by_cases h1 : state = "available"
      · simp [waitVolumeLoop, hr, h1] at he; exact he
      · by_cases h2 : state = "error"
        · simp [waitVolumeLoop, hr, h1, h2] at he; exact he
        · by_cases h3 : p.cancelled
          · simp [waitVolumeLoop, hr, h1, h2, h3] at he; exact he
          · simp [waitVolumeLoop, hr, h1, h2, h3] at he
            rcases he with he | he
            · exact he
            · exact ih _ e he

theorem waitSnapshotLoop_count (s : PVCStatus) (polls : List SnapPoll)
    (e : Event) (he : e ≠ Event.getSnapshotProgress) :
    (waitSnapshotLoop s polls).1.count e = 0 := by
  rw [List.count_eq_zero]
  intro hmem
  exact he (waitSnapshotLoop_trace polls s e hmem)

theorem waitVolumeLoop_count (s : PVCStatus) (polls : List VolPoll)
    (e : Event) (he : e ≠ Event.getVolumeState) :
    (waitVolumeLoop s polls).1.count e = 0 := by
  rw [List.count_eq_zero]
  intro hmem
  exact he (waitVolumeLoop_trace polls s e hmem)

theorem waitSnapshotLoop_inv (polls : List SnapPoll) :
    ∀ s : PVCStatus, s.error = none →
      (∀ t ∈ (waitSnapshotLoop s polls).2.1, statusInv t) ∧
      (∀ t, (waitSnapshotLoop s polls).2.2 = LoopOut.completed t →
        t.error = none) ∧
      (∀ t, (waitSnapshotLoop s polls).2.2 = LoopOut.running t →
        t.error = none) := by
  induction polls with
  | nil =>
    intro s hs
    refine ⟨?_, ?_, ?_⟩
    · intro t ht; simp [waitSnapshotLoop] at ht
    · intro t ht; simp [waitSnapshotLoop] at ht
    · intro t ht
      simp [waitSnapshotLoop] at ht
      subst ht; exact hs
  | cons p rest ih =>
    intro s hs
    rcases hr : p.result with e0 | pr
    · refine ⟨?_, ?_, ?_⟩
      · intro t ht
        simp [waitSnapshotLoop, hr] at ht
        subst ht; exact statusInv_updateStatus_some _ _ _ _
      · intro t ht; simp [waitSnapshotLoop, hr] at ht
      · intro t ht; simp [waitSnapshotLoop, hr] at ht
    · obtain ⟨prog, state⟩ := pr
      have hs1 : (updateStatus s Step.waitSnapshot prog none).error = none := by
        rw [(updateStatus_none s Step.waitSnapshot prog).1]; exact hs
      have hinv1 : statusInv (updateStatus s Step.waitSnapshot prog none) :=
        statusInv_updateStatus_none s Step.waitSnapshot prog hs (by decide)
      by_cases h1 : state = "completed"
      · refine ⟨?_, ?_, ?_⟩
        · intro t ht
          simp [waitSnapshotLoop, hr, h1] at ht
          subst ht; exact hinv1
        · intro t ht
          simp [waitSnapshotLoop, hr, h1] at ht
          subst ht; exact hs1
        · intro t ht; simp [waitSnapshotLoop, hr, h1] at ht
      · by_cases h2 : state = "error"
        · refine ⟨?_, ?_, ?_⟩
          · intro t ht
            simp [waitSnapshotLoop, hr, h1, h2] at ht
            rcases ht with ht | ht
            · subst ht; exact hinv1
            · subst ht; exact statusInv_updateStatus_some _ _ _ _
          · intro t ht; simp [waitSnapshotLoop, hr, h1, h2] at ht
          · intro t ht; simp [waitSnapshotLoop, hr, h1, h2] at ht
        · by_cases h3 : p.cancelled
          · refine ⟨?_, ?_, ?_⟩
            · intro t ht
              simp [waitSnapshotLoop, hr, h1, h2, h3] at ht
              rcases ht with ht | ht
              · subst ht; exact hinv1
              · subst ht; exact statusInv_updateStatus_some _ _ _ _
            · intro t ht; simp [waitSnapshotLoop, hr, h1, h2, h3] at ht
            · intro t ht; simp [waitSnapshotLoop, hr, h1, h2, h3] at ht
          · have hrest := ih (updateStatus s Step.waitSnapshot prog none) hs1
            refine ⟨?_, ?_, ?_⟩
            · intro t ht
              simp [waitSnapshotLoop, hr, h1, h2, h3] at ht
              rcases ht with ht | ht
              · subst ht; exact hinv1
              · exact hrest.1 t ht
            · intro t ht
              simp [waitSnapshotLoop, hr, h1, h2, h3] at ht
              exact hrest.2.1 t ht
            · intro t ht
              simp [waitSnapshotLoop, hr, h1, h2, h3] at ht
              exact hrest.2.2 t ht

theorem waitVolumeLoop_inv (polls : List VolPoll) :
    ∀ s : PVCStatus, s.error = none →
      (∀ t ∈ (waitVolumeLoop s polls).2.1, statusInv t) ∧
      (∀ t, (waitVolumeLoop s polls).2.2 = LoopOut.completed t →
        t.error = none) ∧
      (∀ t, (waitVolumeLoop s polls).2.2 = LoopOut.running t →
        t.error = none) := by
  induction polls with
  | nil =>
    intro s hs
    refine ⟨?_, ?_, ?_⟩
    · intro t ht; simp [waitVolumeLoop] at ht
    · intro t ht; simp [waitVolumeLoop] at ht
    · intro t ht
      simp [waitVolumeLoop] at ht
      subst ht; exact hs
  | cons p rest ih =>
    intro s hs
    rcases hr : p.result with e0 | state
    · refine ⟨?_, ?_, ?_⟩
      · intro t ht
        simp [waitVolumeLoop, hr] at ht
        subst ht; exact statusInv_updateStatus_some _ _ _ _
      · intro t ht; simp [waitVolumeLoop, hr] at ht
      · intro t ht; simp [waitVolumeLoop, hr] at ht
    · by_cases h1 : state = "available"
      · have hs1 : (updateStatus s Step.waitVolume 100 none).error = none := by
          rw [(updateStatus_none s Step.waitVolume 100).1]; exact hs
        refine ⟨?_, ?_, ?_⟩
        · intro t ht
          simp [waitVolumeLoop, hr, h1] at ht
          subst ht
          exact statusInv_updateStatus_none s Step.waitVolume 100 hs (by decide)
        · intro t ht
          simp [waitVolumeLoop, hr, h1] at ht
          subst ht; exact hs1
        · intro t ht; simp [waitVolumeLoop, hr, h1] at ht
      · by_cases h2 : state = "error"
        · refine ⟨?_, ?_, ?_⟩
          · intro t ht
            simp [waitVolumeLoop, hr, h1, h2] at ht
            subst ht; exact statusInv_updateStatus_some _ _ _ _
          · intro t ht; simp [waitVolumeLoop, hr, h1, h2] at ht
          · intro t ht; simp [waitVolumeLoop, hr, h1, h2] at ht
        · have hs1 : (updateStatus s Step.waitVolume
              (if state = "creating" then 25 else 50) none).error = none := by
            rw [(updateStatus_none s Step.waitVolume _).1]; exact hs
          have hinv1 : statusInv (updateStatus s Step.waitVolume
              (if state = "creating" then 25 else 50) none) :=
            statusInv_updateStatus_none s Step.waitVolume _ hs (by decide)
          by_cases h3 : p.cancelled
          · refine ⟨?_, ?_, ?_⟩
            · intro t ht
              simp [waitVolumeLoop, hr, h1, h2, h3] at ht
              rcases ht with ht | ht
              · subst ht; exact hinv1
              · subst ht; exact statusInv_updateStatus_some _ _ _ _
            · intro t ht; simp [waitVolumeLoop, hr, h1, h2, h3] at ht
            · intro t ht; simp [waitVolumeLoop, hr, h1, h2, h3] at ht
          · have hrest := ih (updateStatus s Step.waitVolume
                (if state = "creating" then 25 else 50) none) hs1
            refine ⟨?_, ?_, ?_⟩
            · intro t ht
              simp [waitVolumeLoop, hr, h1, h2, h3] at ht
              rcases ht with ht | ht
              · subst ht; exact hinv1
              · exact hrest.1 t ht
            · intro t ht
              simp [waitVolumeLoop, hr, h1, h2, h3] at ht
              exact hrest.2.1 t ht
            · intro t ht
              simp [waitVolumeLoop, hr, h1, h2, h3] at ht
              exact hrest.2.2 t ht

/-! ## Loop traces contain only poll events -/

theorem not_mem_snapLoop (s : PVCStatus) (polls : List SnapPoll) (e : Event)
    (hne : e ≠ Event.getSnapshotProgress) :
    e ∉ (waitSnapshotLoop s polls).1 :=
  fun hmem => hne (waitSnapshotLoop_trace polls s e hmem)

theorem not_mem_volLoop (s : PVCStatus) (polls : List VolPoll) (e : Event)
    (hne : e ≠ Event.getVolumeState) :
    e ∉ (waitVolumeLoop s polls).1 :=
  fun hmem => hne (waitVolumeLoop_trace polls s e hmem)

@[simp] theorem staticPV_not_mem_snapLoop (s : PVCStatus) (polls : List SnapPoll) :
    Event.createStaticPV ∉ (waitSnapshotLoop s polls).1 :=
  not_mem_snapLoop s polls _ (by decide)

@[simp] theorem cleanup_not_mem_snapLoop (s : PVCStatus) (polls : List SnapPoll) :
    Event.cleanupResources ∉ (waitSnapshotLoop s polls).1 :=
  not_mem_snapLoop s polls _ (by decide)

@[simp] theorem boundPVC_not_mem_snapLoop (s : PVCStatus) (polls : List SnapPoll) :
    Event.createBoundPVC ∉ (waitSnapshotLoop s polls).1 :=
  not_mem_snapLoop s polls _ (by decide)

@[simp] theorem staticPV_not_mem_volLoop (s : PVCStatus) (polls : List VolPoll) :
    Event.createStaticPV ∉ (waitVolumeLoop s polls).1 :=
  not_mem_volLoop s polls _ (by decide)

@[simp] theorem cleanup_not_mem_volLoop (s : PVCStatus) (polls : List VolPoll) :
    Event.cleanupResources ∉ (waitVolumeLoop s polls).1 :=
  not_mem_volLoop s polls _ (by decide)

@[simp] theorem boundPVC_not_mem_volLoop (s : PVCStatus) (polls : List VolPoll) :
    Event.createBoundPVC ∉ (waitVolumeLoop s polls).1 :=
  not_mem_volLoop s polls _ (by decide)

@[simp] theorem count_snapLoop_staticPV (s : PVCStatus) (polls : List SnapPoll) :
    (waitSnapshotLoop s polls).1.count Event.createStaticPV = 0 :=
  waitSnapshotLoop_count s polls _ (by decide)

@[simp] theorem count_snapLoop_cleanup (s : PVCStatus) (polls : List SnapPoll) :
    (waitSnapshotLoop s polls).1.count Event.cleanupResources = 0 :=
  waitSnapshotLoop_count s polls _ (by decide)

@[simp] theorem count_snapLoop_boundPVC (s : PVCStatus) (polls : List SnapPoll) :
    (waitSnapshotLoop s polls).1.count Event.createBoundPVC = 0 :=
  waitSnapshotLoop_count s polls _ (by decide)

@[simp] theorem count_volLoop_staticPV (s : PVCStatus) (polls : List VolPoll) :
    (waitVolumeLoop s polls).1.count Event.createStaticPV = 0 :=
  waitVolumeLoop_count s polls _ (by decide)

@[simp] theorem count_volLoop_cleanup (s : PVCStatus) (polls : List VolPoll) :
    (waitVolumeLoop s polls).1.count Event.cleanupResources = 0 :=
  waitVolumeLoop_count s polls _ (by decide)

@[simp] theorem count_volLoop_boundPVC (s : PVCStatus) (polls : List VolPoll) :
    (waitVolumeLoop s polls).1.count Event.createBoundPVC = 0 :=
  waitVolumeLoop_count s polls _ (by decide)

theorem sublist_of_sublist_right {l B : List Event} (A : List Event)
    (h : List.Sublist l B) : List.Sublist l (A ++ B) :=
  h.trans (List.sublist_append_right A B)

/-! ## Ordering of the create/cleanup/bind calls -/

theorem createAndSwapPhase_events (env : Env) (s : PVCStatus) :
    (Event.cleanupResources ∈ (createAndSwapPhase env s).1 →
      List.Sublist [Event.createStaticPV, Event.cleanupResources]
        (createAndSwapPhase env s).1 ∧
      env.createStaticPV = none) ∧
    (Event.createBoundPVC ∈ (createAndSwapPhase env s).1 →
      List.Sublist
        [Event.createStaticPV, Event.cleanupResources, Event.createBoundPVC]
        (createAndSwapPhase env s).1) ∧
    (createAndSwapPhase env s).1.count Event.createStaticPV ≤ 1 ∧
    (createAndSwapPhase env s).1.count Event.cleanupResources ≤ 1 ∧
    (createAndSwapPhase env s).1.count Event.createBoundPVC ≤ 1 := by
  rcases hspv : env.createStaticPV with _ | e1
  · rcases hclr : env.cleanupResources with _ | e2
    · rcases hcbp : env.createBoundPVC with _ | e3
      · simp [createAndSwapPhase, hspv, hclr, hcbp]
      · simp [createAndSwapPhase, hspv, hclr, hcbp]
    · simp [createAndSwapPhase, hspv, hclr]
  · simp [createAndSwapPhase, hspv]

theorem volumePhase_events (env : Env) (s : PVCStatus) :
    (Event.cleanupResources ∈ (volumePhase env s).1 →
      List.Sublist [Event.createStaticPV, Event.cleanupResources]
        (volumePhase env s).1 ∧
      env.createStaticPV = none) ∧
    (Event.createBoundPVC ∈ (volumePhase env s).1 →
      List.Sublist
        [Event.createStaticPV, Event.cleanupResources, Event.createBoundPVC]
        (volumePhase env s).1) ∧
    (volumePhase env s).1.count Event.createStaticPV ≤ 1 ∧
    (volumePhase env s).1.count Event.cleanupResources ≤ 1 ∧
    (volumePhase env s).1.count Event.createBoundPVC ≤ 1 := by
  rcases hcv : env.createVolume with e | vid
  · simp [volumePhase, hcv]
  · rcases hV : waitVolumeLoop
        (updateStatus
          { updateStatus s Step.createVolume 0 none with newVolumeID := vid }
          Step.waitVolume 0 none) env.volumePolls with ⟨trV, stV, outV⟩
    have h1 : trV = (waitVolumeLoop
        (updateStatus
          { updateStatus s Step.createVolume 0 none with newVolumeID := vid }
          Step.waitVolume 0 none) env.volumePolls).1 := by
      rw [hV]
    have htrV : ∀ e ∈ trV, e = Event.getVolumeState := by
      intro e he
      rw [h1] at he
      exact waitVolumeLoop_trace env.volumePolls _ e he
    have hcountV : ∀ e1 : Event, e1 ≠ Event.getVolumeState →
        trV.count e1 = 0 := by
      intro e1 hne
      rw [List.count_eq_zero]
      intro hmem
      exact hne (htrV e1 hmem)
    cases outV with
    | failedOut sf =>
      have htr : (volumePhase env s).1 = Event.createVolume :: trV := by
        simp [volumePhase, hcv, hV]
      rw [htr]
      refine ⟨?_, ?_, ?_, ?_, ?_⟩
      · intro hmem
        rcases List.mem_cons.mp hmem with h | h
        · exact absurd h (by decide)
        · exact absurd (htrV _ h) (by decide)
      · intro hmem
        rcases List.mem_cons.mp hmem with h | h
        · exact absurd h (by decide)
        · exact absurd (htrV _ h) (by decide)
      · simp [List.count_cons, hcountV Event.createStaticPV (by decide)]
      · simp [List.count_cons, hcountV Event.cleanupResources (by decide)]
      · simp [List.count_cons, hcountV Event.createBoundPVC (by decide)]
    | running sr =>
      have htr : (volumePhase env s).1 = Event.createVolume :: trV := by
        simp [volumePhase, hcv, hV]
      rw [htr]
      refine ⟨?_, ?_, ?_, ?_, ?_⟩
      · intro hmem
        rcases List.mem_cons.mp hmem with h | h
        · exact absurd h (by decide)
        · exact absurd (htrV _ h) (by decide)
      · intro hmem
        rcases List.mem_cons.mp hmem with h | h
        · exact absurd h (by decide)
        · exact absurd (htrV _ h) (by decide)
      · simp [List.count_cons, hcountV Event.createStaticPV (by decide)]
      · simp [List.count_cons, hcountV Event.cleanupResources (by decide)]
      · simp [List.count_cons, hcountV Event.createBoundPVC (by decide)]
    | completed s11 =>
      have hsw := createAndSwapPhase_events env s11
      have htr : (volumePhase env s).1 =
          Event.createVolume :: (trV ++ (createAndSwapPhase env s11).1) := by
        simp [volumePhase, hcv, hV]
      rw [htr]
      refine ⟨?_, ?_, ?_, ?_, ?_⟩
      · intro hmem
        rcases List.mem_cons.mp hmem with h | h
        · exact absurd h (by decide)
        rcases List.mem_append.mp h with h2 | h2
        · exact absurd (htrV _ h2) (by decide)
        · refine ⟨?_, (hsw.1 h2).2⟩
          exact List.Sublist.cons _ (sublist_of_sublist_right trV (hsw.1 h2).1)
      · intro hmem
        rcases List.mem_cons.mp hmem with h | h
        · exact absurd h (by decide)
        rcases List.mem_append.mp h with h2 | h2
        · exact absurd (htrV _ h2) (by decide)
        · exact List.Sublist.cons _ (sublist_of_sublist_right trV (hsw.2.1 h2))
      · have h0 := hcountV Event.createStaticPV (by decide)
        simpa [List.count_cons, List.count_append, h0] using hsw.2.2.1
      · have h0 := hcountV Event.cleanupResources (by decide)
        simpa [List.count_cons, List.count_append, h0] using hsw.2.2.2.1
      · have h0 := hcountV Event.createBoundPVC (by decide)
        simpa [List.count_cons, List.count_append, h0] using hsw.2.2.2.2

theorem snapshotPhase_events (env : Env) (s : PVCStatus) :
    (Event.cleanupResources ∈ (snapshotPhase env s).1 →
      List.Sublist [Event.createStaticPV, Event.cleanupResources]
        (snapshotPhase env s).1 ∧
      env.createStaticPV = none) ∧
    (Event.createBoundPVC ∈ (snapshotPhase env s).1 →
      List.Sublist
        [Event.createStaticPV, Event.cleanupResources, Event.createBoundPVC]
        (snapshotPhase env s).1) ∧
    (snapshotPhase env s).1.count Event.createStaticPV ≤ 1 ∧
    (snapshotPhase env s).1.count Event.cleanupResources ≤ 1 ∧
    (snapshotPhase env s).1.count Event.createBoundPVC ≤ 1 := by
  rcases hcs : env.createSnapshot with e | snapID
  · simp [snapshotPhase, hcs]
  · rcases hS : waitSnapshotLoop
        (updateStatus
          { updateStatus s Step.snapshot 0 none with snapshotID := snapID }
          Step.waitSnapshot 0 none) env.snapshotPolls with ⟨trS, stS, outS⟩
    have h1 : trS = (waitSnapshotLoop
        (updateStatus
          { updateStatus s Step.snapshot 0 none with snapshotID := snapID }
          Step.waitSnapshot 0 none) env.snapshotPolls).1 := by
      rw [hS]
    have htrS : ∀ e ∈ trS, e = Event.getSnapshotProgress := by
      intro e he
      rw [h1] at he
      exact waitSnapshotLoop_trace env.snapshotPolls _ e he
    have hcountS : ∀ e1 : Event, e1 ≠ Event.getSnapshotProgress →
        trS.count e1 = 0 := by
      intro e1 hne
      rw [List.count_eq_zero]
      intro hmem
      exact hne (htrS e1 hmem)
    cases outS with
    | failedOut sf =>
      have htr : (snapshotPhase env s).1 = Event.createSnapshot :: trS := by
        simp [snapshotPhase, hcs, hS]
      rw [htr]
      refine ⟨?_, ?_, ?_, ?_, ?_⟩
      · intro hmem
        rcases List.mem_cons.mp hmem with h | h
        · exact absurd h (by decide)
        · exact absurd (htrS _ h) (by decide)
      · intro hmem
        rcases List.mem_cons.mp hmem with h | h
        · exact absurd h (by decide)
        · exact absurd (htrS _ h) (by decide)
      · simp [List.count_cons, hcountS Event.createStaticPV (by decide)]
      · simp [List.count_cons, hcountS Event.cleanupResources (by decide)]
      · simp [List.count_cons, hcountS Event.createBoundPVC (by decide)]
    | running sr =>
      have htr : (snapshotPhase env s).1 = Event.createSnapshot :: trS := by
        simp [snapshotPhase, hcs, hS]
      rw [htr]
      refine ⟨?_, ?_, ?_, ?_, ?_⟩
      · intro hmem
        rcases List.mem_cons.mp hmem with h | h
        · exact absurd h (by decide)
        · exact absurd (htrS _ h) (by decide)
      · intro hmem
        rcases List.mem_cons.mp hmem with h | h
        · exact absurd h (by decide)
        · exact absurd (htrS _ h) (by decide)
      · simp [List.count_cons, hcountS Event.createStaticPV (by decide)]
      · simp [List.count_cons, hcountS Event.cleanupResources (by decide)]
      · simp [List.count_cons, hcountS Event.createBoundPVC (by decide)]
    | completed s7 =>
      have hv := volumePhase_events env s7
      have htr : (snapshotPhase env s).1 =
          Event.createSnapshot :: (trS ++ (volumePhase env s7).1) := by
        simp [snapshotPhase, hcs, hS]
      rw [htr]
      refine ⟨?_, ?_, ?_, ?_, ?_⟩
      · intro hmem
        rcases List.mem_cons.mp hmem with h | h
        · exact absurd h (by decide)
        rcases List.mem_append.mp h with h2 | h2
        · exact absurd (htrS _ h2) (by decide)
        · refine ⟨?_, (hv.1 h2).2⟩
          exact List.Sublist.cons _ (sublist_of_sublist_right trS (hv.1 h2).1)
      · intro hmem
        rcases List.mem_cons.mp hmem with h | h
        · exact absurd h (by decide)
        rcases List.mem_append.mp h with h2 | h2
        · exact absurd (htrS _ h2) (by decide)
        · exact List.Sublist.cons _ (sublist_of_sublist_right trS (hv.2.1 h2))
      · have h0 := hcountS Event.createStaticPV (by decide)
        simpa [List.count_cons, List.count_append, h0] using hv.2.2.1
      · have h0 := hcountS Event.cleanupResources (by decide)
        simpa [List.count_cons, List.count_append, h0] using hv.2.2.2.1
      · have h0 := hcountS Event.createBoundPVC (by decide)
        simpa [List.count_cons, List.count_append, h0] using hv.2.2.2.2

/-- Claim C1: in every execution of a single task's state machine that
performs a migration, the creation of the new static PV happens
strictly before the deletion of the old claim and volume, which happens
strictly before the creation of the new bound claim; the old
claim/volume is never deleted unless CreateStaticPV already succeeded.
Stated over the trace of gateway calls: whenever CleanupResources was
called, CreateStaticPV was called before it and succeeded; whenever
CreateBoundPVC was called, the three calls appear in order; and each of
the three calls happens at most once, so the sublists give strict
ordering. -/
theorem claim_C1_create_before_cleanup_before_bind (cfg : Config)
    (env : Env) (s0 : PVCStatus) :
    (Event.cleanupResources ∈ (migratePVC cfg env s0).1 →
      List.Sublist [Event.createStaticPV, Event.cleanupResources]
        (migratePVC cfg env s0).1 ∧
      env.createStaticPV = none) ∧
    (Event.createBoundPVC ∈ (migratePVC cfg env s0).1 →
      List.Sublist
        [Event.createStaticPV, Event.cleanupResources, Event.createBoundPVC]
        (migratePVC cfg env s0).1) ∧
    (migratePVC cfg env s0).1.count Event.createStaticPV ≤ 1 ∧
    (migratePVC cfg env s0).1.count Event.cleanupResources ≤ 1 ∧
    (migratePVC cfg env s0).1.count Event.createBoundPVC ≤ 1 := by
  rcases hgpi : env.getPVCInfo with e | info
  · simp [migratePVC, hgpi]
  · rcases hgvi : env.getVolumeInfo with e | volInfo
    · simp [migratePVC, hgpi, hgvi]
    · by_cases hzone : volInfo.availabilityZone = cfg.targetZone
      · simp [migratePVC, hgpi, hgvi, hzone]
      · by_cases hdry : cfg.dryRun
        · simp [migratePVC, hgpi, hgvi, hzone, hdry]
        · have hs := snapshotPhase_events env
            { updateStatus { s0 with startTimeSet := true } Step.getInfo 0 none
                with
              oldVolumeID := info.volumeID, pvName := info.pvName,
              capacity := info.capacity,
              currentZone := volInfo.availabilityZone }
          have htr : (migratePVC cfg env s0).1 =
              Event.getPVCInfo :: Event.getVolumeInfo ::
                (snapshotPhase env
                  { updateStatus { s0 with startTimeSet := true }
                      Step.getInfo 0 none
                      with
                    oldVolumeID := info.volumeID, pvName := info.pvName,
                    capacity := info.capacity,
                    currentZone := volInfo.availabilityZone }).1 := by
            simp [migratePVC, hgpi, hgvi, hzone, hdry]
          rw [htr]
          refine ⟨?_, ?_, ?_, ?_, ?_⟩
          · intro hmem
            rcases List.mem_cons.mp hmem with h | h
            · exact absurd h (by decide)
            rcases List.mem_cons.mp h with h2 | h2
            · exact absurd h2 (by decide)
            · refine ⟨?_, (hs.1 h2).2⟩
              exact List.Sublist.cons _ (List.Sublist.cons _ (hs.1 h2).1)
          · intro hmem
            rcases List.mem_cons.mp hmem with h | h
            · exact absurd h (by decide)
            rcases List.mem_cons.mp h with h2 | h2
            · exact absurd h2 (by decide)
            · exact List.Sublist.cons _ (List.Sublist.cons _ (hs.2.1 h2))
          · simpa [List.count_cons] using hs.2.2.1
          · simpa [List.count_cons] using hs.2.2.2.1
          · simpa [List.count_cons] using hs.2.2.2.2


theorem claim_C1_witness :
    List.Sublist
      [Event.createStaticPV, Event.cleanupResources, Event.createBoundPVC]
      (migratePVC cfgSample envHappy (initialStatus "ns/data")).1 :=
  (claim_C1_create_before_cleanup_before_bind cfgSample envHappy
    (initialStatus "ns/data")).2.1 (by decide)

/-! ## Dry-run purity and the skip rule -/

theorem updateStatus_none_progress (s : PVCStatus) (st : Step) (p : Int) :
    (updateStatus s st p none).progress = p := by
  unfold updateStatus
  split
  · rename_i h; simp at h
  · split <;> simp

theorem migratePVC_dry_trace (cfg : Config) (env : Env) (s0 : PVCStatus)
    (hdry : cfg.dryRun = true) :
    ∀ e ∈ (migratePVC cfg env s0).1, e.isMutating = false := by
  intro e he
  rcases hgpi : env.getPVCInfo with er | info
  · simp [migratePVC, hgpi] at he
    subst he; rfl
  · rcases hgvi : env.getVolumeInfo with er | volInfo
    · simp [migratePVC, hgpi, hgvi] at he
      rcases he with he | he <;> (subst he; rfl)
    · by_cases hzone : volInfo.availabilityZone = cfg.targetZone
      · simp [migratePVC, hgpi, hgvi, hzone] at he
        rcases he with he | he <;> (subst he; rfl)
      · simp [migratePVC, hgpi, hgvi, hzone, hdry] at he
        rcases he with he | he <;> (subst he; rfl)

theorem migratePVC_dry_done (cfg : Config) (env : Env) (s0 : PVCStatus)
    (hdry : cfg.dryRun = true) (info : PVCInfo) (volInfo : VolumeInfo)
    (h1 : env.getPVCInfo = Except.ok info)
    (h2 : env.getVolumeInfo = Except.ok volInfo)
    (hzone : volInfo.availabilityZone ≠ cfg.targetZone) :
    (migratePVC cfg env s0).2.2.step = Step.done ∧
    (migratePVC cfg env s0).2.2.progress = 100 := by
  refine ⟨?_, ?_⟩ <;>
    simp [migratePVC, h1, h2, hzone, hdry, updateStatus]

/-- Claim C4: for every task list, when the dry-run flag is set, Run
never invokes any mutating gateway operation (CreateSnapshot,
CreateVolume, CleanupResources, CreateStaticPV, CreateBoundPVC), and
every task whose current zone (as reported by the gateways) differs
from the target zone ends in step Done with progress 100. -/
theorem claim_C4_dry_run_purity (cfg : Config) (envs : String → Env)
    (hdry : cfg.dryRun = true) :
    (∀ e ∈ (Run cfg envs).1, e.isMutating = false) ∧
    (∀ p ∈ cfg.pvcList, ∀ info volInfo,
      (envs p).getPVCInfo = Except.ok info →
      (envs p).getVolumeInfo = Except.ok volInfo →
      volInfo.availabilityZone ≠ cfg.targetZone →
      (migratePVC cfg (envs p) (initialStatus p)).2.2.step = Step.done ∧
      (migratePVC cfg (envs p) (initialStatus p)).2.2.progress = 100) := by
  constructor
  · intro e he
    simp only [Run, List.mem_flatten, List.mem_map] at he
    obtain ⟨l, ⟨p, hp, rfl⟩, hel⟩ := he
    exact migratePVC_dry_trace cfg (envs p) (initialStatus p) hdry e hel
  · intro p hp info volInfo h1 h2 hzone
    exact migratePVC_dry_done cfg (envs p) (initialStatus p) hdry
      info volInfo h1 h2 hzone

theorem claim_C4_witness :
    (migratePVC { cfgSample with dryRun := true } envHappy
        (initialStatus "ns/data")).2.2.step = Step.done :=
  ((claim_C4_dry_run_purity { cfgSample with dryRun := true }
      (fun _ => envHappy) rfl).2 "ns/data" (by decide)
    ⟨"pv-data", "vol-old", "50Gi", 50⟩ ⟨"vol-old", "us-east-1b", "in-use"⟩
    rfl rfl (by decide)).1

theorem migratePVC_skip (cfg : Config) (env : Env) (s0 : PVCStatus)
    (info : PVCInfo) (volInfo : VolumeInfo)
    (h1 : env.getPVCInfo = Except.ok info)
    (h2 : env.getVolumeInfo = Except.ok volInfo)
    (hz : volInfo.availabilityZone = cfg.targetZone) :
    (migratePVC cfg env s0).2.2.step = Step.skipped ∧
    (migratePVC cfg env s0).2.2.progress = 100 ∧
    (migratePVC cfg env s0).2.2.endTimeSet = true ∧
    (migratePVC cfg env s0).1 = [Event.getPVCInfo, Event.getVolumeInfo] := by
  refine ⟨?_, ?_, ?_, ?_⟩ <;>
    simp [migratePVC, h1, h2, hz, updateStatus]

/-- Claim C5: for every task whose backing volume's current zone equals
the configured target zone, the state machine sets the task to Skipped
with progress 100 and a set end timestamp and performs no mutating
gateway call; running the engine any number of times on such a task
yields Skipped every time with zero mutating gateway calls each time. -/
theorem claim_C5_skip_idempotent (cfg : Config) (env : Env) (full : String)
    (info : PVCInfo) (volInfo : VolumeInfo)
    (h1 : env.getPVCInfo = Except.ok info)
    (h2 : env.getVolumeInfo = Except.ok volInfo)
    (hz : volInfo.availabilityZone = cfg.targetZone) :
    ∀ n : Nat,
      ∀ r ∈ List.replicate n (migratePVC cfg env (initialStatus full)),
        r.2.2.step = Step.skipped ∧ r.2.2.progress = 100 ∧
        r.2.2.endTimeSet = true ∧ ∀ e ∈ r.1, e.isMutating = false := by
  intro n r hr
  have hrep := List.eq_of_mem_replicate hr
  subst hrep
  have h := migratePVC_skip cfg env (initialStatus full) info volInfo h1 h2 hz
  refine ⟨h.1, h.2.1, h.2.2.1, ?_⟩
  intro e he
  rw [h.2.2.2] at he
  rcases List.mem_cons.mp he with he | he
  · subst he; rfl
  rcases List.mem_cons.mp he with he | he
  · subst he; rfl
  · cases he

theorem claim_C5_witness :
    (migratePVC cfgSample envAlreadyInZone
      (initialStatus "ns/data")).2.2.step = Step.skipped ∧
    (migratePVC cfgSample envAlreadyInZone
      (initialStatus "ns/data")).2.2.progress = 100 :=
  ⟨(claim_C5_skip_idempotent cfgSample envAlreadyInZone "ns/data"
      ⟨"pv-data", "vol-old", "50Gi", 50⟩ ⟨"vol-old", "us-east-1a", "in-use"⟩
      rfl rfl rfl 3 _ (by decide)).1,
   (claim_C5_skip_idempotent cfgSample envAlreadyInZone "ns/data"
      ⟨"pv-data", "vol-old", "50Gi", 50⟩ ⟨"vol-old", "us-east-1a", "in-use"⟩
      rfl rfl rfl 3 _ (by decide)).2.1⟩

/-! ## The Error/Failed invariant over stored statuses -/

theorem createAndSwapPhase_inv (env : Env) (s : PVCStatus)
    (hs : s.error = none) :
    ∀ t ∈ (createAndSwapPhase env s).2.1, statusInv t := by
  have hs12 : (updateStatus s Step.createPV 0 none).error = none := by
    rw [(updateStatus_none _ _ _).1]; exact hs
  have hi12 : statusInv (updateStatus s Step.createPV 0 none) :=
    statusInv_updateStatus_none _ _ _ hs (by decide)
  rcases hspv : env.createStaticPV with _ | e1
  · have hs13 : (updateStatus (updateStatus s Step.createPV 0 none)
        Step.cleanup 0 none).error = none := by
      rw [(updateStatus_none _ _ _).1]; exact hs12
    have hi13 : statusInv (updateStatus (updateStatus s Step.createPV 0 none)
        Step.cleanup 0 none) :=
      statusInv_updateStatus_none _ _ _ hs12 (by decide)
    rcases hclr : env.cleanupResources with _ | e2
    · have hs14 : (updateStatus (updateStatus
          (updateStatus s Step.createPV 0 none) Step.cleanup 0 none)
          Step.createPVC 0 none).error = none := by
        rw [(updateStatus_none _ _ _).1]; exact hs13
      have hi14 : statusInv (updateStatus (updateStatus
          (updateStatus s Step.createPV 0 none) Step.cleanup 0 none)
          Step.createPVC 0 none) :=
        statusInv_updateStatus_none _ _ _ hs13 (by decide)
      rcases hcbp : env.createBoundPVC with _ | e3
      · intro t ht
        simp [createAndSwapPhase, hspv, hclr, hcbp] at ht
        rcases ht with ht | ht | ht | ht
        · subst ht; exact hi12
        · subst ht; exact hi13
        · subst ht; exact hi14
        · subst ht
          exact statusInv_updateStatus_none _ _ _ hs14 (by decide)
      · intro t ht
        simp [createAndSwapPhase, hspv, hclr, hcbp] at ht
        rcases ht with ht | ht | ht | ht
        · subst ht; exact hi12
        · subst ht; exact hi13
        · subst ht; exact hi14
        · subst ht; exact statusInv_updateStatus_some _ _ _ _
    · intro t ht
      simp [createAndSwapPhase, hspv, hclr] at ht
      rcases ht with ht | ht | ht
      · subst ht; exact hi12
      · subst ht; exact hi13
      · subst ht; exact statusInv_updateStatus_some _ _ _ _
  · intro t ht
    simp [createAndSwapPhase, hspv] at ht
    rcases ht with ht | ht
    · subst ht; exact hi12
    · subst ht; exact statusInv_updateStatus_some _ _ _ _

theorem createAndSwapPhase_final_stored (env : Env) (s : PVCStatus) :
    (createAndSwapPhase env s).2.2 ∈ (createAndSwapPhase env s).2.1 := by
  rcases hspv : env.createStaticPV with _ | e1
  · rcases hclr : env.cleanupResources with _ | e2
    · rcases hcbp : env.createBoundPVC with _ | e3 <;>
        simp [createAndSwapPhase, hspv, hclr, hcbp]
    · simp [createAndSwapPhase, hspv, hclr]
  · simp [createAndSwapPhase, hspv]

theorem volumePhase_inv (env : Env) (s : PVCStatus) (hs : s.error = none) :
    ∀ t ∈ (volumePhase env s).2.1, statusInv t := by
  have hs8 : (updateStatus s Step.createVolume 0 none).error = none := by
    rw [(updateStatus_none _ _ _).1]; exact hs
  have hi8 : statusInv (updateStatus s Step.createVolume 0 none) :=
    statusInv_updateStatus_none _ _ _ hs (by decide)
  rcases hcv : env.createVolume with e | vid
  · intro t ht
    simp [volumePhase, hcv] at ht
    rcases ht with ht | ht
    · subst ht; exact hi8
    · subst ht; exact statusInv_updateStatus_some _ _ _ _
  · have hs9 : ({ updateStatus s Step.createVolume 0 none with
        newVolumeID := vid } : PVCStatus).error = none := hs8
    have hi9 : statusInv ({ updateStatus s Step.createVolume 0 none with
        newVolumeID := vid } : PVCStatus) := by
      have h8 := statusInv_updateStatus_none s Step.createVolume 0 hs
        (by decide)
      simpa [statusInv] using h8
    have hs10 : (updateStatus
        { updateStatus s Step.createVolume 0 none with newVolumeID := vid }
        Step.waitVolume 0 none).error = none := by
      rw [(updateStatus_none _ _ _).1]; exact hs9
    have hi10 : statusInv (updateStatus
        { updateStatus s Step.createVolume 0 none with newVolumeID := vid }
        Step.waitVolume 0 none) :=
      statusInv_updateStatus_none _ _ _ hs9 (by decide)
    rcases hV : waitVolumeLoop
        (updateStatus
          { updateStatus s Step.createVolume 0 none with newVolumeID := vid }
          Step.waitVolume 0 none) env.volumePolls with ⟨trV, stV, outV⟩
    have hloop := waitVolumeLoop_inv env.volumePolls
      (updateStatus
        { updateStatus s Step.createVolume 0 none with newVolumeID := vid }
        Step.waitVolume 0 none) hs10
    rw [hV] at hloop
    cases outV with
    | failedOut sf =>
      intro t ht
      simp [volumePhase, hcv, hV] at ht
      rcases ht with ht | ht | ht | ht
      · subst ht; exact hi8
      · subst ht; exact hi9
      · subst ht; exact hi10
      · exact hloop.1 t ht
    | running sr =>
      intro t ht
      simp [volumePhase, hcv, hV] at ht
      rcases ht with ht | ht | ht | ht
      · subst ht; exact hi8
      · subst ht; exact hi9
      · subst ht; exact hi10
      · exact hloop.1 t ht
    | completed s11 =>
      have hs11 : s11.error = none := hloop.2.1 s11 rfl
      intro t ht
      simp [volumePhase, hcv, hV] at ht
      rcases ht with ht | ht | ht | ht | ht
      · subst ht; exact hi8
      · subst ht; exact hi9
      · subst ht; exact hi10
      · exact hloop.1 t ht
      · exact createAndSwapPhase_inv env s11 hs11 t ht

theorem snapshotPhase_inv (env : Env) (s : PVCStatus) (hs : s.error = none) :
    ∀ t ∈ (snapshotPhase env s).2.1, statusInv t := by
  have hs4 : (updateStatus s Step.snapshot 0 none).error = none := by
    rw [(updateStatus_none _ _ _).1]; exact hs
  have hi4 : statusInv (updateStatus s Step.snapshot 0 none) :=
    statusInv_updateStatus_none _ _ _ hs (by decide)
  rcases hcs : env.createSnapshot with e | snapID
  · intro t ht
    simp [snapshotPhase, hcs] at ht
    rcases ht with ht | ht
    · subst ht; exact hi4
    · subst ht; exact statusInv_updateStatus_some _ _ _ _
  · have hs5 : ({ updateStatus s Step.snapshot 0 none with
        snapshotID := snapID } : PVCStatus).error = none := hs4
    have hi5 : statusInv ({ updateStatus s Step.snapshot 0 none with
        snapshotID := snapID } : PVCStatus) := by
      have h4 := statusInv_updateStatus_none s Step.snapshot 0 hs (by decide)
      simpa [statusInv] using h4
    have hs6 : (updateStatus
        { updateStatus s Step.snapshot 0 none with snapshotID := snapID }
        Step.waitSnapshot 0 none).error = none := by
      rw [(updateStatus_none _ _ _).1]; exact hs5
    have hi6 : statusInv (updateStatus
        { updateStatus s Step.snapshot 0 none with snapshotID := snapID }
        Step.waitSnapshot 0 none) :=
      statusInv_updateStatus_none _ _ _ hs5 (by decide)
    rcases hS : waitSnapshotLoop
        (updateStatus
          { updateStatus s Step.snapshot 0 none with snapshotID := snapID }
          Step.waitSnapshot 0 none) env.snapshotPolls with ⟨trS, stS, outS⟩
    have hloop := waitSnapshotLoop_inv env.snapshotPolls
      (updateStatus
        { updateStatus s Step.snapshot 0 none with snapshotID := snapID }
        Step.waitSnapshot 0 none) hs6
    rw [hS] at hloop
    cases outS with
    | failedOut sf =>
      intro t ht
      simp [snapshotPhase, hcs, hS] at ht
      rcases ht with ht | ht | ht | ht
      · subst ht; exact hi4
      · subst ht; exact hi5
      · subst ht; exact hi6
      · exact hloop.1 t ht
    | running sr =>
      intro t ht
      simp [snapshotPhase, hcs, hS] at ht
      rcases ht with ht | ht | ht | ht
      · subst ht; exact hi4
      · subst ht; exact hi5
      · subst ht; exact hi6
      · exact hloop.1 t ht
    | completed s7 =>
      have hs7 : s7.error = none := hloop.2.1 s7 rfl
      intro t ht
      simp [snapshotPhase, hcs, hS] at ht
      rcases ht with ht | ht | ht | ht | ht
      · subst ht; exact hi4
      · subst ht; exact hi5
      · subst ht; exact hi6
      · exact hloop.1 t ht
      · exact volumePhase_inv env s7 hs7 t ht

theorem migratePVC_inv (cfg : Config) (env : Env) (s0 : PVCStatus)
    (hs0 : s0.error = none) (hstep : s0.step ≠ Step.failed) :
    ∀ t ∈ (migratePVC cfg env s0).2.1, statusInv t := by
  have hiA : statusInv ({ s0 with startTimeSet := true } : PVCStatus) := by
    simp [statusInv, hs0, hstep]
  have hsA : ({ s0 with startTimeSet := true } : PVCStatus).error = none := hs0
  have hs1 : (updateStatus { s0 with startTimeSet := true }
      Step.getInfo 0 none).error = none := by
    rw [(updateStatus_none _ _ _).1]; exact hsA
  have hi1 : statusInv (updateStatus { s0 with startTimeSet := true }
      Step.getInfo 0 none) :=
    statusInv_updateStatus_none _ _ _ hsA (by decide)
  rcases hgpi : env.getPVCInfo with e | info
  · intro t ht
    simp [migratePVC, hgpi] at ht
    rcases ht with ht | ht | ht
    · subst ht; exact hiA
    · subst ht; exact hi1
    · subst ht; exact statusInv_updateStatus_some _ _ _ _
  · have hs2 : ({ updateStatus { s0 with startTimeSet := true }
        Step.getInfo 0 none with
        oldVolumeID := info.volumeID, pvName := info.pvName,
        capacity := info.capacity } : PVCStatus).error = none := hs1
    have hi2 : statusInv ({ updateStatus { s0 with startTimeSet := true }
        Step.getInfo 0 none with
        oldVolumeID := info.volumeID, pvName := info.pvName,
        capacity := info.capacity } : PVCStatus) := by
      simpa [statusInv] using hi1
    rcases hgvi : env.getVolumeInfo with e | volInfo
    · intro t ht
      simp [migratePVC, hgpi, hgvi] at ht
      rcases ht with ht | ht | ht | ht
      · subst ht; exact hiA
      · subst ht; exact hi1
      · subst ht; exact hi2
      · subst ht; exact statusInv_updateStatus_some _ _ _ _
    · have hs3 : ({ { updateStatus { s0 with startTimeSet := true }
          Step.getInfo 0 none with
          oldVolumeID := info.volumeID, pvName := info.pvName,
          capacity := info.capacity } with
          currentZone := volInfo.availabilityZone } : PVCStatus).error =
            none := hs1
      have hi3 : statusInv ({ { updateStatus { s0 with startTimeSet := true }
          Step.getInfo 0 none with
          oldVolumeID := info.volumeID, pvName := info.pvName,
          capacity := info.capacity } with
          currentZone := volInfo.availabilityZone } : PVCStatus) := by
        simpa [statusInv] using hi1
      by_cases hzone : volInfo.availabilityZone = cfg.targetZone
      · have hi4 : statusInv (updateStatus
            { { updateStatus { s0 with startTimeSet := true }
              Step.getInfo 0 none with
              oldVolumeID := info.volumeID, pvName := info.pvName,
              capacity := info.capacity } with
              currentZone := volInfo.availabilityZone }
            Step.skipped 100 none) :=
          statusInv_updateStatus_none _ _ _ hs3 (by decide)
        have hi5 : statusInv ({ updateStatus
            { { updateStatus { s0 with startTimeSet := true }
              Step.getInfo 0 none with
              oldVolumeID := info.volumeID, pvName := info.pvName,
              capacity := info.capacity } with
              currentZone := volInfo.availabilityZone }
            Step.skipped 100 none with endTimeSet := true } : PVCStatus) := by
          simpa [statusInv] using hi4
        intro t ht
        simp [migratePVC, hgpi, hgvi, hzone] at ht
        rcases ht with ht | ht | ht | ht | ht | ht
        · subst ht; exact hiA
        · subst ht; exact hi1
        · subst ht; exact hi2
        · subst ht; exact hi3
        · subst ht; exact hi4
        · subst ht; exact hi5
      · by_cases hdry : cfg.dryRun
        · have hi4 : statusInv (updateStatus
              { { updateStatus { s0 with startTimeSet := true }
                Step.getInfo 0 none with
                oldVolumeID := info.volumeID, pvName := info.pvName,
                capacity := info.capacity } with
                currentZone := volInfo.availabilityZone }
              Step.done 100 none) :=
            statusInv_updateStatus_none _ _ _ hs3 (by decide)
          intro t ht
          simp [migratePVC, hgpi, hgvi, hzone, hdry] at ht
          rcases ht with ht | ht | ht | ht | ht
          · subst ht; exact hiA
          · subst ht; exact hi1
          · subst ht; exact hi2
          · subst ht; exact hi3
          · subst ht; exact hi4
        · intro t ht
          simp [migratePVC, hgpi, hgvi, hzone, hdry] at ht
          rcases ht with ht | ht | ht | ht | ht
          · subst ht; exact hiA
          · subst ht; exact hi1
          · subst ht; exact hi2
          · subst ht; exact hi3
          · exact snapshotPhase_inv env _ hs3 t ht

/-- Claim C10: in every status stored in the Status Store by the state
machine starting from a task's Pending entry, the Error field is
non-nil if and only if the Step is Failed; moreover every updateStatus
call with a non-nil error stores Step Failed and sets the end
timestamp regardless of the step argument passed, and an update with a
nil error leaves the stored Error unchanged (so it never stores a
non-nil Error that was not already present). -/
theorem claim_C10_error_iff_failed (cfg : Config) (env : Env)
    (full : String) :
    (∀ t ∈ (migratePVC cfg env (initialStatus full)).2.1,
      t.error.isSome = true ↔ t.step = Step.failed) ∧
    (∀ (s : PVCStatus) (st : Step) (p : Int) (e : String),
      (updateStatus s st p (some e)).step = Step.failed ∧
      (updateStatus s st p (some e)).endTimeSet = true) ∧
    (∀ (s : PVCStatus) (st : Step) (p : Int),
      (updateStatus s st p none).error = s.error) := by
  refine ⟨?_, ?_, ?_⟩
  · intro t ht
    exact migratePVC_inv cfg env (initialStatus full) rfl
      (by simp [initialStatus]) t ht
  · intro s st p e
    exact ⟨(updateStatus_some s st p e).1, (updateStatus_some s st p e).2.2⟩
  · intro s st p
    exact (updateStatus_none s st p).1

theorem claim_C10_witness :
    (({ initialStatus "ns/data" with startTimeSet := true } :
        PVCStatus).error.isSome = true ↔
      ({ initialStatus "ns/data" with startTimeSet := true } :
        PVCStatus).step = Step.failed) ∧
    (updateStatus (initialStatus "ns/data") Step.snapshot 0
        (some "boom")).step = Step.failed :=
  ⟨(claim_C10_error_iff_failed cfgSample envHappy "ns/data").1 _ (by decide),
   ((claim_C10_error_iff_failed cfgSample envHappy "ns/data").2.1
     (initialStatus "ns/data") Step.snapshot 0 "boom").1⟩

/-! ## Enum rendering totality (claim C8) -/

/-- Claim C8 counterexample: Step.String applied to the value -1 of the
underlying integer type panics (yields no string) instead of rendering
"Unknown", so the claim that both String methods are total with an
Unknown fallback on every out-of-range value is false. -/
theorem claim_C8_counterexample : stepString (-1) = none := by decide

/-- Claim C8 (amended): PlanAction.String is a total function with an
"Unknown" fallback for every out-of-range value of the underlying
integer type, including negatives; Step.String returns a string for
every non-negative value, rendering every value at or above 12 as
"Unknown", but panics (returns no string) on negative values because
the code guards only the upper bound of the lookup table. -/
theorem claim_C8_enum_strings :
    (∀ a : Int, a < 0 ∨ 2 < a → planActionString a = "Unknown") ∧
    planActionString 0 = "Migrate" ∧
    planActionString 1 = "Skip" ∧
    planActionString 2 = "Error" ∧
    (∀ s : Int, 12 ≤ s → stepString s = some "Unknown") ∧
    (∀ s : Int, 0 ≤ s → s < 12 →
      stepString s = some (stepNames.getD s.toNat "")) ∧
    (∀ s : Int, s < 0 → stepString s = none) := by
  refine ⟨?_, rfl, rfl, rfl, ?_, ?_, ?_⟩
  · intro a ha
    unfold planActionString
    rw [if_neg (by omega), if_neg (by omega), if_neg (by omega)]
  · intro s hs
    unfold stepString
    rw [if_neg (by simp [stepNames]; omega)]
  · intro s h0 h12
    unfold stepString
    rw [if_pos (by simp [stepNames]; omega), if_pos h0]
  · intro s hneg
    unfold stepString
    rw [if_pos (by simp [stepNames]; omega), if_neg (by omega)]

theorem claim_C8_witness :
    planActionString (-5) = "Unknown" ∧ stepString 99 = some "Unknown" :=
  ⟨claim_C8_enum_strings.1 (-5) (Or.inl (by decide)),
   claim_C8_enum_strings.2.2.2.2.1 99 (by decide)⟩

/-! ## Capacity rounding (claim C3) -/

/-- Claim C3 counterexample: a capacity of 1.5 GiB (1610612736 bytes)
lies strictly between the whole-GiB values 1 GiB and 2 GiB, so the
claim requires the next whole GiB up (2, as the spec-modelled rounding
computes); the code computes 1, because GetPVCInfo divides with
truncation. -/
theorem claim_C3_counterexample :
    1073741824 < 1610612736 ∧ 1610612736 < 2147483648 ∧
    capacityGiFromBytes 1610612736 = 1 ∧
    specRoundUpGi 1610612736 = 2 := by
  refine ⟨by decide, by decide, by decide, by decide⟩

/-- Claim C3 (amended): the size passed to the volume-creation gateway
call is the source capacity in bytes divided by 2^30 with truncating
(rounding-down) integer division, clamped below at 1: any capacity
below 1 GiB maps to 1, exact whole-GiB multiples map to that integer,
and every capacity of at least 1 GiB maps to its GiB count rounded
down, not up. Stated for capacities below 2^61 bytes, where the int32
conversion in the code does not wrap. -/
theorem claim_C3_capacity_truncates (bytes : Nat)
    (hb : bytes < 2305843009213693952) :
    (bytes < 1073741824 → capacityGiFromBytes bytes = 1) ∧
    (∀ k : Nat, 1 ≤ k → bytes = k * 1073741824 →
      capacityGiFromBytes bytes = ((k : Nat) : Int)) ∧
    (1073741824 ≤ bytes →
      capacityGiFromBytes bytes = ((bytes / 1073741824 : Nat) : Int)) := by
  have hmul : (2147483648 : Nat) * 1073741824 = 2305843009213693952 := by
    norm_num
  have hq : bytes / 1073741824 < 2147483648 :=
    Nat.div_lt_of_lt_mul (by rw [hmul]; exact hb)
  have hcast : ((bytes / 1073741824 : Nat) : Int) < 2147483648 := by
    exact_mod_cast hq
  have h0 : (0 : Int) ≤ ((bytes / 1073741824 : Nat) : Int) :=
    Int.ofNat_nonneg _
  have hid : toInt32 ((bytes / 1073741824 : Nat) : Int) =
      ((bytes / 1073741824 : Nat) : Int) := by
    unfold toInt32
    rw [Int.emod_eq_of_lt h0 (by omega)]
    rw [if_pos hcast]
  have hmain : 1073741824 ≤ bytes →
      capacityGiFromBytes bytes = ((bytes / 1073741824 : Nat) : Int) := by
    intro hge
    have hq1 : 1 ≤ bytes / 1073741824 :=
      (Nat.one_le_div_iff (by norm_num)).mpr hge
    unfold capacityGiFromBytes
    rw [hid]
    rw [if_neg (Int.not_lt.mpr (by exact_mod_cast hq1))]
  refine ⟨?_, ?_, hmain⟩
  · intro hlt
    have hz : bytes / 1073741824 = 0 := Nat.div_eq_of_lt hlt
    unfold capacityGiFromBytes
    rw [hid, hz]
    rw [if_pos (by decide)]
  · intro k hk hbk
    subst hbk
    rw [hmain (Nat.le_mul_of_pos_left _ hk)]
    exact_mod_cast
      congrArg (fun x : Nat => (x : Int))
        (by omega : k * 1073741824 / 1073741824 = k)

theorem claim_C3_witness :
    capacityGiFromBytes 53687091200 = ((50 : Nat) : Int) ∧
    capacityGiFromBytes 524288000 = 1 :=
  ⟨(claim_C3_capacity_truncates 53687091200 (by decide)).2.1 50
     (by decide) (by decide),
   (claim_C3_capacity_truncates 524288000 (by decide)).1 (by decide)⟩

/-! ## Plan generation (claim C7) -/

theorem planItemFor_trace (cfg : Config) (env : PlanEnv) (p : String) :
    ∀ e ∈ (planItemFor cfg env p).2, e.isMutating = false := by
  intro e he
  rcases h1 : env.getPVCInfo (ParsePVCName p).1 (ParsePVCName p).2
    with e1 | info
  · simp [planItemFor, h1] at he
    subst he; rfl
  · rcases h2 : env.getVolumeInfo info.volumeID with e2 | volInfo
    · simp [planItemFor, h1, h2] at he
      rcases he with he | he <;> (subst he; rfl)
    · by_cases hz : volInfo.availabilityZone = cfg.targetZone
      · simp [planItemFor, h1, h2, hz] at he
        rcases he with he | he <;> (subst he; rfl)
      · simp [planItemFor, h1, h2, hz] at he
        rcases he with he | he <;> (subst he; rfl)

/-- Claim C7 counterexample: with both lookups succeeding and the
volume in a different zone than the target, the resulting plan item is
classified Migrate but carries an empty reason string, so no reason is
captured for the Migrate classification (reasons are captured only for
Error and Skip). -/
theorem claim_C7_counterexample :
    ∃ i ∈ (GeneratePlan cfgSample planEnvSample).1.items,
      i.action = PlanAction.migrate ∧ i.currentZone ≠ i.targetZone ∧
      i.reason = "" := by
  decide

/-- Claim C7 (amended): GeneratePlan produces exactly one plan item per
configured task (in task order), performs no mutating gateway call, and
classifies each item as Error when either the claim-info or volume-info
lookup fails, Skip when the volume's current zone equals the target
zone, and Migrate when the zones differ; a reason string is captured
for the Error and Skip classifications, while Migrate items carry an
empty reason. -/
theorem claim_C7_generate_plan (cfg : Config) (env : PlanEnv) :
    (GeneratePlan cfg env).1.items.length = cfg.pvcList.length ∧
    (GeneratePlan cfg env).1.items =
      cfg.pvcList.map (fun p => (planItemFor cfg env p).1) ∧
    (∀ e ∈ (GeneratePlan cfg env).2, e.isMutating = false) ∧
    (∀ p ∈ cfg.pvcList,
      (∀ e1, env.getPVCInfo (ParsePVCName p).1 (ParsePVCName p).2 =
          Except.error e1 →
        (planItemFor cfg env p).1.action = PlanAction.error ∧
        (planItemFor cfg env p).1.reason =
          "Failed to get PVC info: " ++ e1) ∧
      (∀ info, env.getPVCInfo (ParsePVCName p).1 (ParsePVCName p).2 =
          Except.ok info →
        (∀ e2, env.getVolumeInfo info.volumeID = Except.error e2 →
          (planItemFor cfg env p).1.action = PlanAction.error ∧
          (planItemFor cfg env p).1.reason =
            "Failed to get volume info: " ++ e2) ∧
        (∀ volInfo, env.getVolumeInfo info.volumeID = Except.ok volInfo →
          (volInfo.availabilityZone = cfg.targetZone →
            (planItemFor cfg env p).1.action = PlanAction.skip ∧
            (planItemFor cfg env p).1.reason = "Already in target zone") ∧
          (volInfo.availabilityZone ≠ cfg.targetZone →
            (planItemFor cfg env p).1.action = PlanAction.migrate ∧
            (planItemFor cfg env p).1.reason = "")))) := by
  refine ⟨by simp [GeneratePlan], rfl, ?_, ?_⟩
  · intro e he
    simp only [GeneratePlan, List.mem_flatten, List.mem_map] at he
    obtain ⟨l, ⟨p, hp, rfl⟩, hel⟩ := he
    exact planItemFor_trace cfg env p e hel
  · intro p hp
    refine ⟨?_, ?_⟩
    · intro e1 h1
      simp [planItemFor, h1]
    · intro info h1
      refine ⟨?_, ?_⟩
      · intro e2 h2
        simp [planItemFor, h1, h2]
      · intro volInfo h2
        refine ⟨?_, ?_⟩
        · intro hz
          simp [planItemFor, h1, h2, hz]
        · intro hz
          simp [planItemFor, h1, h2, hz]

theorem claim_C7_witness :
    (planItemFor cfgSample planEnvSample "ns/data").1.action =
      PlanAction.migrate :=
  (((((claim_C7_generate_plan cfgSample planEnvSample).2.2.2 "ns/data"
      (by decide)).2 ⟨"pv-data", "vol-old", "50Gi", 50⟩ rfl).2
      ⟨"vol-old", "us-east-1b", "in-use"⟩ rfl).2 (by decide)).1

/-! ## Compensation (claim C2) -/

theorem scaleUp_all_ok (restoreOk : WorkloadInfo → Bool) :
    ∀ ws : List WorkloadInfo,
      (∀ w ∈ ws, eligibleWorkload w = true → restoreOk w = true) →
      ScaleUpWorkloads restoreOk ws = (ws.filter eligibleWorkload, none) := by
  intro ws
  induction ws with
  | nil => intro h; rfl
  | cons w rest ih =>
    intro h
    by_cases he : eligibleWorkload w
    · have hok : restoreOk w = true := h w (by simp) he
      simp [ScaleUpWorkloads, he, hok, List.filter_cons,
        ih (fun u hu hue => h u (by simp [hu]) hue)]
    · simp [ScaleUpWorkloads, he, List.filter_cons,
        ih (fun u hu hue => h u (by simp [hu]) hue)]

theorem scaleUp_stops_at_failure (restoreOk : WorkloadInfo → Bool) :
    ∀ (l1 : List WorkloadInfo) (w : WorkloadInfo) (l2 : List WorkloadInfo),
      (∀ u ∈ l1, eligibleWorkload u = true → restoreOk u = true) →
      eligibleWorkload w = true → restoreOk w = false →
      (ScaleUpWorkloads restoreOk (l1 ++ w :: l2)).1 =
        l1.filter eligibleWorkload ++ [w] ∧
      (ScaleUpWorkloads restoreOk (l1 ++ w :: l2)).2.isSome = true := by
  intro l1
  induction l1 with
  | nil =>
    intro w l2 h hw hok
    simp [ScaleUpWorkloads, hw, hok]
  | cons u rest ih =>
    intro w l2 h hw hok
    have hr := ih w l2 (fun v hv hve => h v (by simp [hv]) hve) hw hok
    by_cases hu : eligibleWorkload u
    · have huok : restoreOk u = true := h u (by simp) hu
      simp [ScaleUpWorkloads, hu, huok, List.filter_cons, hr.1, hr.2]
    · simp [ScaleUpWorkloads, hu, List.filter_cons, hr.1, hr.2]

theorem enable_stops_at_failure (enableOk : ArgoCDAppInfo → Bool) :
    ∀ (l1 : List ArgoCDAppInfo) (a : ArgoCDAppInfo)
      (l2 : List ArgoCDAppInfo),
      (∀ u ∈ l1, enableOk u = true) → enableOk a = false →
      (EnableArgoCDAutoSync enableOk (l1 ++ a :: l2)).1 = l1 ++ [a] := by
  intro l1
  induction l1 with
  | nil =>
    intro a l2 h hok
    simp [EnableArgoCDAutoSync, hok]
  | cons u rest ih =>
    intro a l2 h hok
    have huok := h u (by simp)
    simp [EnableArgoCDAutoSync, huok,
      ih a l2 (fun v hv => h v (by simp [hv])) hok]

/-- Claim C2 counterexample: three recorded deployments in one
namespace, with restoration of the second failing: the first and the
failing second are attempted, but the third recorded workload is never
attempted, because ScaleUpWorkloads returns at the first error. -/
theorem claim_C2_counterexample :
    (ScaleUpWorkloads (fun w => w.name != "b")
        [⟨"Deployment", "a", 1⟩, ⟨"Deployment", "b", 2⟩,
         ⟨"Deployment", "c", 3⟩]).1 =
      [⟨"Deployment", "a", 1⟩, ⟨"Deployment", "b", 2⟩] ∧
    (⟨"Deployment", "c", 3⟩ : WorkloadInfo) ∉
      (ScaleUpWorkloads (fun w => w.name != "b")
        [⟨"Deployment", "a", 1⟩, ⟨"Deployment", "b", 2⟩,
         ⟨"Deployment", "c", 3⟩]).1 := by
  decide

/-- Claim C2 (amended): post-run compensation calls ScaleUpWorkloads
once per recorded namespace group, continuing with the remaining groups
after a failed group, and the sync-automation restore call is made
after workload restoration regardless of workload failures; but within
a single ScaleUpWorkloads or EnableArgoCDAutoSync call the iteration
returns at the first failing item, so recorded items after a failing
one in the same call are not attempted (items before it, and the
failing item itself, are). -/
theorem claim_C2_restore_per_group :
    (∀ (restoreOk : WorkloadInfo → Bool)
       (scaled : List (String × List WorkloadInfo)), scaled ≠ [] →
      restoreWorkloads false restoreOk scaled =
        scaled.map fun g => (g.1, (ScaleUpWorkloads restoreOk g.2).1)) ∧
    (∀ (dryRun : Bool) (restoreOk : WorkloadInfo → Bool)
       (enableOk : ArgoCDAppInfo → Bool)
       (scaled : List (String × List WorkloadInfo))
       (apps : List ArgoCDAppInfo),
      (postRunRestore dryRun restoreOk enableOk scaled apps).2 =
        restoreArgoCDAutoSync dryRun enableOk apps) ∧
    (∀ (restoreOk : WorkloadInfo → Bool) (ws : List WorkloadInfo),
      (∀ w ∈ ws, eligibleWorkload w = true → restoreOk w = true) →
      ScaleUpWorkloads restoreOk ws = (ws.filter eligibleWorkload, none)) ∧
    (∀ (restoreOk : WorkloadInfo → Bool) (l1 : List WorkloadInfo)
       (w : WorkloadInfo) (l2 : List WorkloadInfo),
      (∀ u ∈ l1, eligibleWorkload u = true → restoreOk u = true) →
      eligibleWorkload w = true → restoreOk w = false →
      (ScaleUpWorkloads restoreOk (l1 ++ w :: l2)).1 =
        l1.filter eligibleWorkload ++ [w]) ∧
    (∀ (enableOk : ArgoCDAppInfo → Bool) (l1 : List ArgoCDAppInfo)
       (a : ArgoCDAppInfo) (l2 : List ArgoCDAppInfo),
      (∀ u ∈ l1, enableOk u = true) → enableOk a = false →
      (EnableArgoCDAutoSync enableOk (l1 ++ a :: l2)).1 = l1 ++ [a]) := by
  refine ⟨?_, ?_, ?_, ?_, ?_⟩
  · intro ok scaled hne
    simp [restoreWorkloads, hne]
  · intro dr ok eok scaled apps
    rfl
  · intro ok ws h
    exact scaleUp_all_ok ok ws h
  · intro ok l1 w l2 h hw hok
    exact (scaleUp_stops_at_failure ok l1 w l2 h hw hok).1
  · intro eok l1 a l2 h hok
    exact enable_stops_at_failure eok l1 a l2 h hok

theorem claim_C2_witness :
    (ScaleUpWorkloads (fun w => w.name != "b")
        ([⟨"Deployment", "a", 1⟩] ++ (⟨"Deployment", "b", 2⟩ : WorkloadInfo) ::
          [⟨"Deployment", "c", 3⟩])).1 =
      List.filter eligibleWorkload [⟨"Deployment", "a", 1⟩] ++
        [⟨"Deployment", "b", 2⟩] :=
  claim_C2_restore_per_group.2.2.2.1 (fun w => w.name != "b")
    [⟨"Deployment", "a", 1⟩] ⟨"Deployment", "b", 2⟩
    [⟨"Deployment", "c", 3⟩] (by decide) (by decide) (by decide)

/-! ## Concurrency bound of Run (claim C9) -/

/-- Claim C9: for a gate capacity of k with k ≥ 1, in every scheduler
state reachable during Run at most k tasks hold the admission gate
(execute their migration body) simultaneously, and the done flag is
set only when every task has finished. -/
theorem claim_C9_concurrency_bound (k n : Nat) (hk : 1 ≤ k)
    (st : RunState) (hr : ReachableRun k n st) :
    holdingCount st ≤ k ∧
    (st.done = true → ∀ p ∈ st.phases, p = TaskPhase.finished) := by
  induction hr with
  | init =>
    constructor
    · have h0 : List.count TaskPhase.holding
          (List.replicate n TaskPhase.idle) = 0 :=
        List.count_eq_zero.mpr (by simp [List.mem_replicate])
      simp [initRunState, holdingCount, h0]
    · intro hd
      simp [initRunState] at hd
  | step hprev hstep ih =>
    cases hstep with
    | acquire pre post d hk2 =>
      constructor
      · simp only [holdingCount, List.count_append, List.count_cons] at hk2 ⊢
        simp at hk2 ⊢
        omega
      · intro hd
        have hall := ih.2 hd
        have hcontra : TaskPhase.idle = TaskPhase.finished :=
          hall TaskPhase.idle (by simp)
        cases hcontra
    | release pre post d =>
      constructor
      · have h1 := ih.1
        simp only [holdingCount, List.count_append, List.count_cons] at h1 ⊢
        simp at h1 ⊢
        omega
      · intro hd
        have hall := ih.2 hd
        have hcontra : TaskPhase.holding = TaskPhase.finished :=
          hall TaskPhase.holding (by simp)
        cases hcontra
    | markDone ph h =>
      exact ⟨ih.1, fun _ => h⟩

theorem claim_C9_witness :
    holdingCount ⟨[TaskPhase.holding, TaskPhase.idle], false⟩ ≤ 1 :=
  (claim_C9_concurrency_bound 1 2 (by decide)
    ⟨[TaskPhase.holding, TaskPhase.idle], false⟩
    (ReachableRun.step ReachableRun.init
      (RunStep.acquire [] [TaskPhase.idle] false (by decide)))).1

end PVZone

